import Mathlib

/-!
Verification development for the reports-backend rendering pipeline.

The embedding works over `Str := List Char`: every markup-producing function
of the source (src/src/renderers.ts, src/src/server.ts, src/unnamed/part_000)
is translated literally into a Lean function producing a `List Char`, with
JavaScript template literals rendered as explicit concatenations of string
literals and interpolated parts.  Impure inputs are made explicit parameters:
the current date (used by `dateFmt` when no value is supplied) is a `Now`
record, and the network (used by asset hydration) is an `Oracle` function
from a URL to an optional fetch result.  Braces that are literal text are
written with the \x7b / \x7d escapes.
-/

namespace Reports

/-- Character lists stand in for JavaScript strings. -/
abbrev Str := List Char

/-- Shorthand turning a Lean string literal into the `Str` representation. -/
def S (s : String) : Str := s.data

/-- The apostrophe character (U+0027), built numerically. -/
def apo : Char := Char.ofNat 39

/-! ## Decimal rendering of numbers

JavaScript's `String(n)` on an integral number prints its decimal digits
(with a leading minus sign when negative).  `natStr`/`intStr` model that,
via Mathlib's `Nat.digits`. -/

/-- One decimal digit as a character (`0 ↦ '0'`, ..., `9 ↦ '9'`). -/
def digitChar (d : Nat) : Char := Char.ofNat (48 + d)

/-- Little-endian base-10 digits, with a structural fuel argument (the
number itself bounds the digit count) so that evaluation reduces in the
kernel. -/
def natDigitsAux : Nat → Nat → List Nat
  | 0, _ => []
  | _ + 1, 0 => []
  | fuel + 1, n + 1 => ((n + 1) % 10) :: natDigitsAux fuel ((n + 1) / 10)

/-- Decimal representation of a natural number, most significant digit first. -/
def natStr (n : Nat) : Str :=
  if n = 0 then ['0'] else ((natDigitsAux n n).reverse).map digitChar

/-- Decimal representation of an integer (model of JavaScript `String(n)`
for integral numbers). -/
def intStr (n : Int) : Str :=
  if n < 0 then '-' :: natStr n.natAbs else natStr n.toNat

/-- `String(n).padStart(2, "0")` from `dateFmt`. -/
def pad2 (n : Nat) : Str :=
  let s := natStr n
  if s.length < 2 then '0' :: s else s

/-- Four-digit zero padding, as `Date.prototype.toISOString` applies to the
year field. -/
def pad4 (n : Nat) : Str :=
  let s := natStr n
  List.replicate (4 - s.length) '0' ++ s

/-! ## HTML escaping (src/src/renderers.ts lines 5-13 and 307-314)

The source's `esc` is the chain
`replaceAll("&","&amp;") ∘ replaceAll("<","&lt;") ∘ replaceAll(">","&gt;")
 ∘ replaceAll('"',"&quot;") ∘ replaceAll("'","&#39;")` (applied in that
order).  Each pattern is a single character, so `replaceAll` is the
character-wise substitution `replAllC`. -/

/-- `s.replaceAll(p, r)` for a single-character pattern `p`. -/
def replAllC (p : Char) (r : Str) : Str → Str
  | [] => []
  | c :: cs => (if c = p then r else [c]) ++ replAllC p r cs

/-- The `esc` utility of src/src/renderers.ts (lines 5-13), on string input.
(The `v == null` branch is modelled at the call sites that can pass null,
see `escCell`.) -/
def esc (s : Str) : Str :=
  replAllC apo (S "&#39;")
    (replAllC '"' (S "&quot;")
      (replAllC '>' (S "&gt;")
        (replAllC '<' (S "&lt;")
          (replAllC '&' (S "&amp;") s))))

/-- `escapeHtml` of src/src/renderers.ts (lines 307-314) and
src/src/server.ts (lines 57-64): the same five replacements as `esc`. -/
def escapeHtml (s : Str) : Str := esc s

/-! ## Class-list assembly -/

/-- Join with single spaces (JavaScript array join with a space separator). -/
def sepSpace : List Str → Str
  | [] => []
  | [x] => x
  | x :: y :: ys => x ++ ' ' :: sepSpace (y :: ys)

/-- The `tw` utility (src/src/renderers.ts line 15):
filter out the falsy entries, then join with single spaces.  `none` models a missing
(undefined) argument and the empty string is likewise falsy. -/
def tw (cs : List (Option Str)) : Str :=
  sepSpace ((cs.filterMap id).filter (fun s => s ≠ []))

/-! ## Alignment enums -/

inductive Align | left | center | right
deriving DecidableEq, Repr

/-- The string value an `Align` carries in the JSON model. -/
def Align.str : Align → Str
  | .left => S "left"
  | .center => S "center"
  | .right => S "right"

/-- `alignFlex` (src/src/renderers.ts lines 17-18). -/
def alignFlex : Align → Str
  | .left => S "justify-start"
  | .center => S "justify-center"
  | .right => S "justify-end"

/-- `justifyCSS` (src/src/server.ts lines 53-55). -/
def justifyCSS : Align → Str
  | .left => S "flex-start"
  | .right => S "flex-end"
  | .center => S "center"

/-! ## Date formatting (src/src/renderers.ts lines 20-40)

`dateFmt` consults the ambient clock only on its `undefined` branch
(`new Date().toISOString().slice(0, 10)`); the clock is the explicit
`Now` parameter here.  On the value-present branch the source takes the
first ten characters, parses them with `new Date(s)` and formats the
result with `getDate`/`getMonth`/`getFullYear`.  The embedding models the
ECMA-262 date-time-string format path of that parse — a `YYYY-MM-DD`
string with in-range month and day parses to that calendar date, anything
else is an invalid date — and a UTC local timezone, under which
`getDate`/`getMonth`/`getFullYear` return the parsed fields directly. -/

/-- The current date (UTC calendar fields of `new Date()`). -/
structure Now where
  year : Nat
  month : Nat
  day : Nat
deriving DecidableEq, Repr

/-- `new Date().toISOString().slice(0, 10)`. -/
def isoOfNow (n : Now) : Str :=
  pad4 n.year ++ '-' :: pad2 n.month ++ '-' :: pad2 n.day

/-- Month lengths used by the ISO-format range check (leap years in
February). -/
def daysInMonth (y m : Nat) : Nat :=
  if m = 2 then
    if y % 4 = 0 ∧ (y % 100 ≠ 0 ∨ y % 400 = 0) then 29 else 28
  else if m = 4 ∨ m = 6 ∨ m = 9 ∨ m = 11 then 30
  else 31

def isDigit (c : Char) : Bool := '0' ≤ c ∧ c ≤ '9'

/-- Numeric value of a digit character. -/
def digitVal (c : Char) : Nat := c.toNat - 48

/-- Parse a `YYYY-MM-DD` string to its calendar fields; `none` when the
shape or the ranges do not match (the source's `Number.isFinite(d.getTime())`
test failing). -/
def parseIso10 (s : Str) : Option (Nat × Nat × Nat) :=
  match s with
  | [y1, y2, y3, y4, h1, m1, m2, h2, d1, d2] =>
    if (isDigit y1 ∧ isDigit y2 ∧ isDigit y3 ∧ isDigit y4 ∧ h1 = '-' ∧
        isDigit m1 ∧ isDigit m2 ∧ h2 = '-' ∧ isDigit d1 ∧ isDigit d2) then
      let y := ((digitVal y1 * 10 + digitVal y2) * 10 + digitVal y3) * 10 + digitVal y4
      let m := digitVal m1 * 10 + digitVal m2
      let d := digitVal d1 * 10 + digitVal d2
      if 1 ≤ m ∧ m ≤ 12 ∧ 1 ≤ d ∧ d ≤ daysInMonth y m then some (y, m, d) else none
    else none
  | _ => none

/-- The month-abbreviation table of `dateFmt` (lines 25-38). -/
def monthMap : List Str :=
  [S "Jan", S "Feb", S "Mar", S "Apr", S "May", S "Jun",
   S "Jul", S "Aug", S "Sep", S "Oct", S "Nov", S "Dec"]

/-- `dateFmt` (src/src/renderers.ts lines 20-40). -/
def dateFmt (iso : Option Str) (now : Now) : Str :=
  match iso with
  | none => isoOfNow now
  | some v =>
    match parseIso10 (v.take 10) with
    | some (y, m, d) =>
      pad2 d ++ ' ' :: (monthMap.getD (m - 1) []) ++ ' ' :: natStr y
    | none => esc v

/-! ## Data model

The validated `Report` shape, as consumed by the renderers.  The `style`
override map of a component is a free-form record in the source; the
renderers read the nine slot keys below, so the embedding carries exactly
those slots (unread keys of the runtime record are unobservable to every
claim).  `TableCfg.headerBg` is dereferenced by `tableBlock`
(src/src/renderers.ts line 105) and therefore part of the renderer's `Cfg`
type; the shipped validator (src/dist/schema.js) never populates it, which
the schema model below reflects. -/

structure Style where
  wrapper : Option Str := none
  title : Option Str := none
  text : Option Str := none
  hr : Option Str := none
  label : Option Str := none
  thead : Option Str := none
  container : Option Str := none
  img : Option Str := none
  caption : Option Str := none
deriving DecidableEq, Repr

/-- A table cell: string, number, or null (src/dist/schema.js line 99). -/
inductive Cell
  | cstr (s : Str)
  | cnum (n : Int)
  | cnull
deriving DecidableEq, Repr

inductive Size | xs | sm | md | lg | xl
deriving DecidableEq, Repr

inductive Component
  | header (text : Str) (style : Style)
  | subheader (text : Str) (style : Style)
  | date (value : Option Str) (style : Style)
  | para (text : Str) (style : Style)
  | divider (style : Style)
  | spacer (size : Option Size) (style : Style)
  | pagebreak (style : Style)
  | signature (label : Option Str) (lines : Option Int) (style : Style)
  | footerText (text : Str) (style : Style)
  | table (title : Option Str) (headers : List Str) (rows : List (List Cell))
      (notes : Option Str) (style : Style)
  | image (url : Str) (alt : Option Str) (caption : Option Str)
      (width : Option Str) (height : Option Str) (style : Style)
deriving DecidableEq, Repr

/-- The palette.  `background` is read by `renderHead`
(src/src/renderers.ts line 262) but absent from the shipped validator's
`Colors` shape (src/dist/schema.js lines 45-51), so it is optional here and
the schema model never populates it; a missing value renders as the literal
text `undefined`, as a JavaScript template literal does. -/
structure Col where
  primary : Str
  accent : Str
  text : Str
  muted : Str
  border : Str
  background : Option Str := none
deriving DecidableEq, Repr

structure AssetsT where
  logo : Option Str := none
  headerImage : Option Str := none
  footerImage : Option Str := none
  backgroundImage : Option Str := none
deriving DecidableEq, Repr

structure PageCfg where
  size : Str
  orientation : Str
  margin : Str
deriving DecidableEq, Repr

structure FontCfg where
  family : Str
  base : Str
  leading : Str
deriving DecidableEq, Repr

/-- The header config; `repeatMode` is the source's `repeat` field
(`"all"` or `"first"`), renamed because `repeat` is reserved in Lean. -/
structure HeaderCfg where
  visible : Bool
  align : Align
  repeatMode : Str
deriving DecidableEq, Repr

structure FooterCfg where
  visible : Bool
  text : Str
  align : Align
deriving DecidableEq, Repr

structure DateCfg where
  align : Align
  format : Str
deriving DecidableEq, Repr

structure TableCfg where
  border : Str
  striped : Bool
  compact : Bool
  headerBg : Option Str := none
deriving DecidableEq, Repr

structure Cfg where
  page : PageCfg
  font : FontCfg
  header : HeaderCfg
  footer : FooterCfg
  date : DateCfg
  table : TableCfg
deriving DecidableEq, Repr

structure Report where
  company : Str
  reportName : Str
  colors : Col
  assets : AssetsT
  configs : Cfg
  components : List Component
deriving DecidableEq, Repr

/-! ## Block renderers (src/src/renderers.ts lines 43-168)

Each is a literal transcription of the corresponding template literal;
interpolations become concatenations.  Literal braces are written \x7b/\x7d. -/

/-- `headerBlock` (lines 43-46). -/
def headerBlock (text : Str) (style : Style) : Str :=
  S "\n<section class=\"" ++ tw [some (S "mb-3"), style.wrapper] ++
  S "\">\n  <h1 class=\"" ++ tw [some (S "text-2xl font-bold text-slate-800"), style.title] ++
  S "\">" ++ esc text ++ S "</h1>\n</section>"

/-- `subheaderBlock` (lines 48-51). -/
def subheaderBlock (text : Str) (style : Style) : Str :=
  S "\n<section class=\"" ++ tw [some (S "mb-2"), style.wrapper] ++
  S "\">\n  <h2 class=\"" ++ tw [some (S "text-xl font-semibold text-slate-700"), style.title] ++
  S "\">" ++ esc text ++ S "</h2>\n</section>"

/-- `dateBlock` (lines 53-56). -/
def dateBlock (value : Option Str) (style : Style) (cfg : Cfg) (now : Now) : Str :=
  S "\n<section class=\"" ++ tw [some (S "mb-2 flex"), some (alignFlex cfg.date.align), style.wrapper] ++
  S "\">\n  <div class=\"" ++ tw [some (S "text-sm text-slate-600"), style.text] ++
  S "\">" ++ esc (dateFmt value now) ++ S "</div>\n</section>"

/-- `paraBlock` (lines 58-61). -/
def paraBlock (text : Str) (style : Style) : Str :=
  S "\n<section class=\"" ++ tw [some (S "mb-3"), style.wrapper] ++
  S "\">\n  <p class=\"" ++ tw [some (S "text-justify"), style.text] ++
  S "\">" ++ esc text ++ S "</p>\n</section>"

/-- `dividerBlock` (lines 63-64). -/
def dividerBlock (colors : Col) (style : Style) : Str :=
  S "\n<hr class=\"" ++ tw [some (S "my-4"), style.hr] ++
  S "\" style=\"border-color:" ++ colors.border ++ S "\"/>"

/-- The size-to-height map of `spacerBlock` (line 67). -/
def spacerHeight : Size → Str
  | .xs => S "h-2"
  | .sm => S "h-4"
  | .md => S "h-8"
  | .lg => S "h-12"
  | .xl => S "h-20"

/-- `spacerBlock` (lines 66-69); `props.size || "md"` defaults a missing
size to `md`. -/
def spacerBlock (size : Option Size) (style : Style) : Str :=
  S "<div class=\"" ++ tw [some (spacerHeight (size.getD .md)), style.wrapper] ++
  S "\"></div>"

/-- `pagebreakBlock` (line 71). -/
def pagebreakBlock : Str := S "<div class=\"pagebreak\"></div>"

/-- One signature line `<div>` (lines 77-79). -/
def signatureLine (colors : Col) : Str :=
  S "<div class=\"border-b\" style=\"border-color:" ++ colors.border ++
  S ";height:2rem;\"></div>"

/-- `n = max(1, min(5, props.lines ?? 1))` (line 74). -/
def sigCount (lines : Option Int) : Int := max 1 (min 5 (lines.getD 1))

/-- The joined signature-line divs (lines 75-80). -/
def sigLines (lines : Option Int) (colors : Col) : Str :=
  (List.replicate (sigCount lines).toNat (signatureLine colors)).flatten

/-- `signatureBlock` (lines 73-88): the replicated signature lines, then the
escaped label (`props.label || ""`). -/
def signatureBlock (label : Option Str) (lines : Option Int) (style : Style)
    (colors : Col) : Str :=
  S "\n<section class=\"" ++ tw [some (S "mt-8"), style.wrapper] ++
  S "\">\n  <div class=\"flex flex-col gap-6 w-64\">\n    " ++
  sigLines lines colors ++
  S "\n    <div class=\"" ++ tw [some (S "text-sm text-slate-600"), style.label] ++
  S "\">" ++ esc (label.getD []) ++ S "</div>\n  </div>\n</section>"

/-- `footerTextBlock` (lines 90-93). -/
def footerTextBlock (text : Str) (style : Style) : Str :=
  S "\n<section class=\"" ++ tw [some (S "mt-8 text-center text-sm text-slate-600"), style.text] ++
  S "\">" ++ esc text ++ S "</section>"

/-- `esc` applied to a table cell (`esc(c)` with `c : string | number | null`;
the `v == null` branch of `esc` yields the empty string). -/
def escCell : Cell → Str
  | .cstr s => esc s
  | .cnum n => esc (intStr n)
  | .cnull => []

/-- One `<th>` cell of `tableBlock` (lines 108-115). -/
def thCell (compact : Str) (colors : Col) (h : Str) : Str :=
  S "<th class=\"" ++ compact ++ S " border-b font-semibold text-left\" style=\"border-color:" ++
  colors.border ++ S "\">" ++ esc h ++ S "</th>"

/-- One `<td>` cell of `tableBlock` (lines 119-126). -/
def tdCell (compact : Str) (colors : Col) (c : Cell) : Str :=
  S "<td class=\"" ++ compact ++ S " border-b\" style=\"border-color:" ++
  colors.border ++ S "\">" ++ escCell c ++ S "</td>"

/-- One `<tr>` body row of `tableBlock` (lines 116-128), with the striped
alternate background on odd indices. -/
def bodyRow (compact : Str) (cfg : Cfg) (colors : Col) (i : Nat) (row : List Cell) : Str :=
  let bg := if cfg.table.striped ∧ i % 2 = 1 then S "bg-gray-50" else []
  S "<tr class=\"" ++ bg ++ S "\">" ++ (row.map (tdCell compact colors)).flatten ++ S "</tr>"

/-- The `title` const of `tableBlock` (lines 96-100); a missing or empty
title is falsy. -/
def tableTitleHtml (title : Option Str) (style : Style) : Str :=
  match title with
  | some t =>
    if t = [] then [] else
      S "<div class=\"" ++ tw [some (S "mb-2 font-semibold text-slate-800"), style.title] ++
      S "\">" ++ esc t ++ S "</div>"
  | none => []

/-- The `compact` const of `tableBlock` (line 101). -/
def tableCompact (cfg : Cfg) : Str :=
  if cfg.table.compact then S "py-1 px-2 text-sm" else S "py-2 px-3"

/-- The `theadClass` const of `tableBlock` (lines 103-106): the
component-level override placed first, the global default second. -/
def theadClassOf (style : Style) (cfg : Cfg) : Str :=
  tw [style.thead, cfg.table.headerBg]

/-- The joined `<th>` cells (lines 108-115). -/
def theadCells (cfg : Cfg) (colors : Col) (headers : List Str) : Str :=
  (headers.map (thCell (tableCompact cfg) colors)).flatten

/-- The joined body `<tr>` rows (lines 116-129). -/
def tbodyRows (cfg : Cfg) (colors : Col) (rows : List (List Cell)) : Str :=
  ((rows.enum).map (fun p => bodyRow (tableCompact cfg) cfg colors p.1 p.2)).flatten

/-- The `notes` const of `tableBlock` (lines 130-132). -/
def tableNotesHtml (notes : Option Str) : Str :=
  match notes with
  | some t =>
    if t = [] then [] else
      S "<div class=\"mt-2 text-xs text-slate-500\">" ++ esc t ++ S "</div>"
  | none => []

/-- The `${thead ? ... : ""}` fragment of `tableBlock` (line 141). -/
def theadRowHtml (cfg : Cfg) (colors : Col) (headers : List Str) : Str :=
  if theadCells cfg colors headers = [] then []
  else S "<tr>" ++ theadCells cfg colors headers ++ S "</tr>"

/-- `tableBlock` (lines 95-148). -/
def tableBlock (title : Option Str) (headers : List Str) (rows : List (List Cell))
    (notes : Option Str) (style : Style) (cfg : Cfg) (colors : Col) : Str :=
  S "\n<section class=\"" ++ tw [some (S "my-4"), style.wrapper] ++
  S "\">\n  " ++ tableTitleHtml title style ++
  S "\n  <div class=\"" ++ tw [some (S "tbl-wrap overflow-x-auto"), style.container] ++
  S "\">\n    <table class=\"" ++ tw [some (S "tbl w-full border-collapse"), some cfg.table.border] ++
  S "\"\n           style=\"border-color:" ++ colors.border ++
  S "\">\n      <thead class=\"" ++ theadClassOf style cfg ++
  S "\">\n        " ++ theadRowHtml cfg colors headers ++
  S "\n      </thead>\n      <tbody>" ++ tbodyRows cfg colors rows ++
  S "</tbody>\n    </table>\n  </div>\n  " ++ tableNotesHtml notes ++
  S "\n</section>"

/-- The width entry of `imageBlock`'s `sizing` array (line 153). -/
def widthPart (width : Option Str) : Str :=
  match width with | some w => S "width:" ++ w ++ S ";" | none => []

/-- The height entry of `imageBlock`'s `sizing` array (line 154). -/
def heightPart (height : Option Str) : Str :=
  match height with | some h => S "height:" ++ h ++ S ";" | none => []

/-- The `sizing` const of `imageBlock` (lines 152-154): raw width/height
values joined into the style attribute. -/
def imgSizing (width height : Option Str) : Str :=
  widthPart width ++ heightPart height

/-- The `cap` const of `imageBlock` (lines 155-159). -/
def imgCaption (caption : Option Str) (style : Style) : Str :=
  match caption with
  | some t =>
    if t = [] then [] else
      S "<div class=\"" ++ tw [some (S "text-xs text-slate-500 mt-1 text-center"), style.caption] ++
      S "\">" ++ esc t ++ S "</div>"
  | none => []

/-- `imageBlock` (lines 151-168). -/
def imageBlock (url : Str) (alt : Option Str) (caption : Option Str)
    (width : Option Str) (height : Option Str) (style : Style) : Str :=
  S "\n<section class=\"" ++ tw [some (S "my-4"), style.wrapper] ++
  S "\">\n  <img src=\"" ++ esc url ++ S "\" alt=\"" ++ esc (alt.getD []) ++
  S "\" class=\"" ++ tw [some (S "max-w-full mx-auto"), style.img] ++
  S "\" style=\"" ++ imgSizing width height ++ S "\"/>\n  " ++
  imgCaption caption style ++ S "\n</section>"

/-! ## Body and head assembly (src/src/renderers.ts lines 171-305) -/

/-- JavaScript truthiness of an optional string (`undefined` and the empty
string are falsy). -/
def isTruthy : Option Str → Bool
  | none => false
  | some s => s ≠ []

/-- Value of an optional string where the source has already checked
truthiness. -/
def optVal (o : Option Str) : Str := o.getD []

/-- JavaScript `String.prototype.replace` with a plain-string pattern:
replaces the first occurrence only. -/
def replFirst (pat repl : Str) : Str → Str
  | [] => if pat = [] then repl else []
  | c :: rest =>
    if pat <+: (c :: rest) then repl ++ (c :: rest).drop pat.length
    else c :: replFirst pat repl rest

/-- The placeholder stripping of the HTML-preview fixed footer band
(src/src/renderers.ts line 242):
`text.replace("\x7b\x7bpage\x7d\x7d", "").replace("\x7b\x7bpages\x7d\x7d", "")`. -/
def stripPreview (t : Str) : Str :=
  replFirst (S "\x7b\x7bpages\x7d\x7d") []
    (replFirst (S "\x7b\x7bpage\x7d\x7d") [] t)

/-- The dispatch of `renderBody` over a component (lines 187-217). -/
def renderComp (cfg : Cfg) (colors : Col) (now : Now) : Component → Str
  | .header t st => headerBlock t st
  | .subheader t st => subheaderBlock t st
  | .date v st => dateBlock v st cfg now
  | .para t st => paraBlock t st
  | .divider st => dividerBlock colors st
  | .spacer sz st => spacerBlock sz st
  | .pagebreak _ => pagebreakBlock
  | .signature lb ln st => signatureBlock lb ln st colors
  | .footerText t st => footerTextBlock t st
  | .table ti hs rs no st => tableBlock ti hs rs no st cfg colors
  | .image u a c w h st => imageBlock u a c w h st

/-- The `<img src=...>` for a truthy `assets.logo` in the in-flow first-page
header (line 177). -/
def logoImgFirst (r : Report) : Str :=
  if isTruthy r.assets.logo then
    S "<img src=\"" ++ optVal r.assets.logo ++ S "\" alt=\"logo\" class=\"h-8 mr-3\"/>"
  else []

/-- Header image or text-title fallback in the in-flow first-page header
(lines 178-182). -/
def headerImgFirst (r : Report) : Str :=
  if isTruthy r.assets.headerImage then
    S "<img src=\"" ++ optVal r.assets.headerImage ++ S "\" alt=\"header\" class=\"h-10\"/>"
  else
    S "<div class=\"text-xl font-semibold\">" ++ escapeHtml r.reportName ++ S "</div>"

/-- `firstPageHeader` (lines 172-185). -/
def firstPageHeader (r : Report) : Str :=
  if r.configs.header.visible ∧ r.configs.header.repeatMode = S "first" then
    S "\n<section class=\"mb-6 border-b pb-3\" style=\"border-color:" ++ r.colors.border ++
    S "\">\n  <div class=\"flex items-center justify-" ++ r.configs.header.align.str ++
    S "\">\n    " ++ logoImgFirst r ++
    S "\n    " ++ headerImgFirst r ++
    S "\n  </div>\n</section>"
  else []

/-- Header image or text-title fallback in the fixed header band
(lines 226-230). -/
def headerImgFixed (r : Report) : Str :=
  if isTruthy r.assets.headerImage then
    S "<img src=\"" ++ optVal r.assets.headerImage ++ S "\" alt=\"header\" class=\"h-10\"/>"
  else
    S "<div class=\"font-semibold\">" ++ escapeHtml r.reportName ++ S "</div>"

/-- `fixedHeader` (lines 220-233): present only when `repeat === "all"`. -/
def fixedHeader (r : Report) : Str :=
  if r.configs.header.visible ∧ r.configs.header.repeatMode = S "all" then
    S "\n<header class=\"fixed-header border-b\" style=\"border-color:" ++ r.colors.border ++
    S "\">\n  <div class=\"flex items-center justify-" ++ r.configs.header.align.str ++
    S " h-full px-4\">\n    " ++ logoImgFirst r ++
    S "\n    " ++ headerImgFixed r ++
    S "\n  </div>\n</header>"
  else []

/-- `fixedFooter` (lines 235-245): the configured footer text with only the
first occurrence of each placeholder removed, inserted without escaping. -/
def fixedFooter (r : Report) : Str :=
  if r.configs.footer.visible then
    S "\n<footer class=\"fixed-footer border-t px-4\" style=\"border-color:" ++ r.colors.border ++
    S "\">\n  " ++
    (if isTruthy r.assets.footerImage then
      S "<img src=\"" ++ optVal r.assets.footerImage ++ S "\" alt=\"footer\" class=\"h-6 mr-2\"/>"
     else []) ++
    S "\n  <span class=\"text-sm text-gray-600\">\n    " ++
    stripPreview r.configs.footer.text ++
    S "\n  </span>\n</footer>"
  else []

/-- The `<main>` wrapper (lines 247-252). -/
def mainWrap (r : Report) (now : Now) : Str :=
  S "\n<main class=\"prose max-w-none text-[0] body-wrap\">\n  <div class=\"text-[inherit] " ++
  r.configs.font.base ++ S " " ++ r.configs.font.leading ++
  S "\" style=\"font-family:" ++ r.configs.font.family ++
  S "\">\n    " ++ firstPageHeader r ++
  ((r.components.map (renderComp r.configs r.colors now)).flatten) ++
  S "\n  </div>\n</main>"

/-- `renderBody` (src/src/renderers.ts lines 171-255).  The `now` parameter
is the ambient clock read by `dateFmt` on date components without a value. -/
def renderBody (r : Report) (now : Now) : Str :=
  fixedHeader r ++ mainWrap r now ++ fixedFooter r

/-- The conditional `background-image` declaration block of `renderHead`
(lines 272-279). -/
def bgImagePart (r : Report) : Str :=
  if isTruthy r.assets.backgroundImage then
    S "background-image:url(" ++ [apo] ++ optVal r.assets.backgroundImage ++ [apo] ++
    S ");\n         background-size:cover;\n         background-repeat:no-repeat;\n         background-position:center top;"
  else []

/-- `renderHead` (src/src/renderers.ts lines 257-305).  `colors.background`
is `undefined` at runtime under the shipped validator and a template
literal prints `undefined` for it. -/
def renderHead (r : Report) : Str :=
  S "\n<style>\n:root\x7b\n  --color-text:" ++ r.colors.text ++
  S ";\n  --color-border:" ++ r.colors.border ++
  S ";\n  --color-bg:" ++ (r.colors.background.getD (S "undefined")) ++
  S ";\n  --page-size:" ++ r.configs.page.size ++
  S ";\n  --page-orientation:" ++ r.configs.page.orientation ++
  S ";\n  --page-margin:" ++ r.configs.page.margin ++
  S ";\n  --header-h:" ++
  (if r.configs.header.visible ∧ r.configs.header.repeatMode = S "all"
    then S "48px" else S "0px") ++
  S ";\n  --footer-h:" ++ (if r.configs.footer.visible then S "40px" else S "0px") ++
  S ";\n\x7d\nbody \x7b\n  color: var(--color-text);\n  background-color: var(--color-bg);\n  " ++
  bgImagePart r ++
  S "\n\x7d\n.body-wrap \x7b padding-top: var(--header-h); padding-bottom: var(--footer-h); \x7d\n.fixed-header \x7b\n  position: fixed; top: 0; left: 0; right: 0; height: var(--header-h);\n  background: var(--color-bg); z-index: 1000;\n\x7d\n.fixed-footer \x7b\n  position: fixed; bottom: 0; left: 0; right: 0; height: var(--footer-h);\n  background: var(--color-bg); z-index: 1000; display: flex; align-items: center;\n\x7d\n.pagebreak \x7b page-break-after: always; \x7d\n\n@page \x7b size: var(--page-size) var(--page-orientation); margin: var(--page-margin); \x7d\n\n@media print \x7b\n  .fixed-header \x7b position: fixed; \x7d\n  .fixed-footer \x7b position: fixed; \x7d\n  html, body \x7b height: auto !important; \x7d\n\n  .tbl \x7b page-break-inside: auto; break-inside: auto; \x7d\n  .tbl thead \x7b display: table-header-group; \x7d\n  .tbl tfoot \x7b display: table-footer-group; \x7d\n  .tbl tr \x7b page-break-inside: avoid; break-inside: avoid; \x7d\n  .tbl-wrap \x7b overflow: visible !important; \x7d\n\x7d\n</style>"

/-! ## Asset fetching and hydration

The network is an explicit oracle: for a URL it yields either a fetch
result — the optional `content-type` header together with the body already
base64-encoded (byte buffers and the base64 encoder are abstracted into the
oracle's output) — or `none` for any failure (transport error or the
non-2xx `throw` path).  Node's `fetch` also resolves `data:` URLs, so the
oracle is defined on those too. -/

structure FetchOk where
  ct : Option Str
  b64 : Str
deriving DecidableEq, Repr

def Oracle := Str → Option FetchOk

/-- `res.headers.get("content-type") || "image/png"`. -/
def ctOr (ct : Option Str) : Str :=
  match ct with
  | some c => if c = [] then S "image/png" else c
  | none => S "image/png"

/-- `urlToDataUri` (src/src/server.ts lines 75-87): no inline recognition —
every truthy argument is fetched and re-encoded; any failure yields null. -/
def urlToDataUri (url : Option Str) (o : Oracle) : Option Str :=
  if isTruthy url then
    match o (optVal url) with
    | some f => some (S "data:" ++ ctOr f.ct ++ S ";base64," ++ f.b64)
    | none => none
  else none

/-- The result record of `buildTemplateAssets` (src/src/server.ts
lines 89-95). -/
structure TplAssets where
  logo : Option Str
  headerImage : Option Str
  footerImage : Option Str
deriving DecidableEq, Repr

/-- `buildTemplateAssets` (src/src/server.ts lines 89-95): reads the report
and produces a separate record; the report itself is not written to. -/
def buildTemplateAssets (r : Report) (o : Oracle) : TplAssets :=
  { logo := urlToDataUri r.assets.logo o
    headerImage := urlToDataUri r.assets.headerImage o
    footerImage := urlToDataUri r.assets.footerImage o }

/-- Modelled from the spec: the `toDataUri` helper imported by
src/unnamed/part_000 from `./lib/toDataUri.js`, a file not present in the
sources.  Per spec §4.2 it resolves a reference to an inline data URI
tagged with the observed content type (generic image type when absent),
returns the value unchanged when it is already inline ("recognized and
passed through unchanged"), and yields nothing on failure ("leave the
field unset and continue"). -/
def toDataUri (url : Option Str) (o : Oracle) : Option Str :=
  match url with
  | none => none
  | some u =>
    if S "data:" <+: u then some u
    else
      match o u with
      | some f => some (S "data:" ++ ctOr f.ct ++ S ";base64," ++ f.b64)
      | none => none

/-- One field update of `hydrateAssets`:
`report.assets.x = (await toDataUri(report.assets.x)) ?? report.assets.x`. -/
def hydRef (u : Option Str) (o : Oracle) : Option Str :=
  match toDataUri u o with
  | some v => some v
  | none => u

/-- The per-component update of `hydrateAssets` (src/unnamed/part_000
lines 85-92): image components get `p.url = (await toDataUri(p.url)) ?? p.url`,
everything else is untouched. -/
def hydrateComp (o : Oracle) : Component → Component
  | .image u a c w h st =>
    .image (match toDataUri (some u) o with | some v => v | none => u) a c w h st
  | c => c

/-- `hydrateAssets` (src/unnamed/part_000 lines 79-93).  The source mutates
`report` in place; the embedding returns the written report, so "the
pipeline does not modify the report" reads as `hydrateAssets r o = r`. -/
def hydrateAssets (r : Report) (o : Oracle) : Report :=
  { r with
    assets :=
      { logo := hydRef r.assets.logo o
        headerImage := hydRef r.assets.headerImage o
        footerImage := hydRef r.assets.footerImage o
        backgroundImage := hydRef r.assets.backgroundImage o }
    components := r.components.map (hydrateComp o) }

/-! ## Print-engine pagination templates (src/src/server.ts lines 98-159)

`footerTemplate` applies two `replaceAll`s with multi-character patterns
and two first-occurrence regex replacements; the regexes are modelled
character-exactly below (ASCII word characters, case-insensitive match,
literal replacement text). -/

/-- `replaceAll` with a (nonempty) multi-character pattern `p :: ps`:
left-to-right, non-overlapping.  The fuel argument (initialized to the
input length, which bounds the number of scanning steps) makes the
recursion structural so that evaluation reduces in the kernel. -/
def replAllSAux (p : Char) (ps : Str) (repl : Str) : Nat → Str → Str
  | 0, l => l
  | _ + 1, [] => []
  | fuel + 1, c :: rest =>
    if (p :: ps) <+: (c :: rest) then
      repl ++ replAllSAux p ps repl fuel (rest.drop ps.length)
    else c :: replAllSAux p ps repl fuel rest

def replAllS (p : Char) (ps : Str) (repl : Str) (l : Str) : Str :=
  replAllSAux p ps repl l.length l

/-- ASCII word character (`\w`): letter, digit or underscore. -/
def isWordChar (c : Char) : Bool :=
  ('a' ≤ c ∧ c ≤ 'z') ∨ ('A' ≤ c ∧ c ≤ 'Z') ∨ ('0' ≤ c ∧ c ≤ '9') ∨ c = '_'

/-- Case-insensitive character comparison (ASCII fold), for the `/i` flag. -/
def ciEq (a b : Char) : Bool := a.toLower = b.toLower

/-- `.replace(/^Page\b/i, '<span style="padding-right:2px;">Page</span>')`:
a case-insensitive `Page` at the start, followed by a non-word character or
the end, is replaced by the literal wrapped text. -/
def wrapPageWord (l : Str) : Str :=
  match l with
  | a :: b :: c :: d :: rest =>
    if ciEq a 'P' ∧ ciEq b 'a' ∧ ciEq c 'g' ∧ ciEq d 'e' ∧
       (rest = [] ∨ ¬ isWordChar (rest.headD ' ')) then
      S "<span style=\"padding-right:2px;\">Page</span>" ++ rest
    else l
  | _ => l

/-- Whether a case-insensitive `of` with word boundaries on both sides
starts here, given whether the previous character was a word character. -/
def ofMatchHere (prevWord : Bool) : Str → Bool
  | a :: b :: rest =>
    ¬ prevWord ∧ ciEq a 'o' ∧ ciEq b 'f' ∧ (rest = [] ∨ ¬ isWordChar (rest.headD ' '))
  | _ => false

/-- Scanner for `.replace(/\bof\b/i, ...)`: replace the first boundary-safe
case-insensitive `of`. -/
def wrapOfWordAux (prevWord : Bool) : Str → Str
  | [] => []
  | c :: rest =>
    if ofMatchHere prevWord (c :: rest) then
      S "<span style=\"padding:0 2px;\">of</span>" ++ rest.drop 1
    else c :: wrapOfWordAux (isWordChar c) rest

def wrapOfWord (l : Str) : Str := wrapOfWordAux false l

/-- The `{{page}}` marker replacement string (line 134): the counter span
surrounded by non-breaking spaces. -/
def pageMarker : Str := S "&nbsp;<span class=\"pageNumber\"></span>&nbsp;"

/-- The `{{pages}}` marker replacement string (line 135): a leading
non-breaking space only. -/
def pagesMarker : Str := S "&nbsp;<span class=\"totalPages\"></span>"

/-- The text-template expansion of `footerTemplate` (lines 132-137). -/
def footerTextHtml (text : Str) : Str :=
  let raw := if text = [] then S "Page \x7b\x7bpage\x7d\x7d of \x7b\x7bpages\x7d\x7d" else text
  wrapOfWord (wrapPageWord
    (replAllS '\x7b' (S "\x7bpages\x7d\x7d") pagesMarker
      (replAllS '\x7b' (S "\x7bpage\x7d\x7d") pageMarker raw)))

/-- The `titleHtml` const of `headerTemplate` (lines 104-106). -/
def headerTplTitle (r : Report) (tpl : TplAssets) : Str :=
  if isTruthy tpl.headerImage then
    S "<img src=\"" ++ optVal tpl.headerImage ++ S "\" style=\"height:18px;\" />"
  else
    S "<div style=\"font-weight:600;\">" ++ escapeHtml r.reportName ++ S "</div>"

/-- The `logoHtml` const of `headerTemplate` (lines 108-110). -/
def headerTplLogo (tpl : TplAssets) : Str :=
  if isTruthy tpl.logo then
    S "<img src=\"" ++ optVal tpl.logo ++ S "\" style=\"height:14px;margin-right:8px;\" />"
  else []

/-- The opening `<div style="...">` of the header fragment (lines 112-124). -/
def headerTplOpen (r : Report) : Str :=
  S "\n<div style=\"\n  font-size:10px;\n  color:" ++ r.colors.text ++
  S ";\n  width:100%;\n  padding:4px 0;\n  display:flex;\n  align-items:center;\n  justify-content:" ++
  justifyCSS r.configs.header.align ++
  S ";\n  border-bottom:1px solid " ++ r.colors.border ++
  S ";\n  font-family:" ++ r.configs.font.family ++
  S ";\n  margin:0 15mm;\n\">\n  "

/-- `headerTemplate` (src/src/server.ts lines 98-127). -/
def headerTemplate (r : Report) (tpl : TplAssets) : Str :=
  if ¬ r.configs.header.visible then S "<div></div>" else
  headerTplOpen r ++ headerTplLogo tpl ++ headerTplTitle r tpl ++ S "\n</div>"

/-- The `imgHtml` const of `footerTemplate` (lines 139-141). -/
def footerTplImg (tpl : TplAssets) : Str :=
  if isTruthy tpl.footerImage then
    S "<img src=\"" ++ optVal tpl.footerImage ++ S "\" style=\"height:14px;margin-right:8px;\" />"
  else []

/-- The opening `<div style="...">` of the footer fragment (lines 143-156). -/
def footerTplOpen (r : Report) : Str :=
  S "\n<div style=\"\n  font-size:10px;\n  color:" ++ r.colors.text ++
  S ";\n  width:100%;\n  padding:4px 0;\n  display:flex;\n  align-items:center;\n  justify-content:" ++
  justifyCSS r.configs.footer.align ++
  S ";\n  border-top:1px solid " ++ r.colors.border ++
  S ";\n  font-family:" ++ r.configs.font.family ++
  S ";\n  margin:0 15mm;\n  font-variant-numeric: tabular-nums;\n\">\n  "

/-- `footerTemplate` (src/src/server.ts lines 129-159). -/
def footerTemplate (r : Report) (tpl : TplAssets) : Str :=
  if ¬ r.configs.footer.visible then S "<div></div>" else
  footerTplOpen r ++ footerTplImg tpl ++ footerTextHtml r.configs.footer.text ++ S "\n</div>"

/-! ## The shipped validator (src/dist/schema.js)

A JSON value model and a literal translation of the zod `ReportSchema`:
strict shapes reject unknown keys, defaulted fields fill in the stated
defaults, and `Component` is the ten-variant discriminated union of
lines 103-114 — which contains no `image` variant.  JSON numbers are
modelled as integers (no claim involves fractional numbers), and zod's
URL-format test is abstracted to requiring a scheme separator (no claim
depends on its exact regex). -/

inductive Json
  | jnull
  | jbool (b : Bool)
  | jnum (n : Int)
  | jstr (s : Str)
  | jarr (xs : List Json)
  | jobj (fields : List (String × Json))

/-- First value bound to a key. -/
def getKey (fs : List (String × Json)) (k : String) : Option Json :=
  match fs.find? (fun f => f.1 = k) with
  | some f => some f.2
  | none => none

/-- The strict-shape test: every present key is a declared one. -/
def allowedKeys (ks : List String) (fs : List (String × Json)) : Bool :=
  fs.all (fun f => ks.contains f.1)

/-- Required string field. -/
def reqStr (fs : List (String × Json)) (k : String) : Option Str :=
  match getKey fs k with
  | some (.jstr s) => some s
  | _ => none

/-- Optional string field: missing is fine, a present non-string fails. -/
def optStr (fs : List (String × Json)) (k : String) : Option (Option Str) :=
  match getKey fs k with
  | none => some none
  | some (.jstr s) => some (some s)
  | some _ => none

/-- Optional string field with a zod `.default`. -/
def optStrD (fs : List (String × Json)) (k : String) (d : String) : Option Str :=
  match getKey fs k with
  | none => some (S d)
  | some (.jstr s) => some s
  | some _ => none

/-- Optional boolean field with a zod `.default`. -/
def optBoolD (fs : List (String × Json)) (k : String) (d : Bool) : Option Bool :=
  match getKey fs k with
  | none => some d
  | some (.jbool b) => some b
  | some _ => none

/-- A `z.enum` member test with a `.default`. -/
def optEnumD (fs : List (String × Json)) (k : String) (vals : List String) (d : String) :
    Option Str :=
  match getKey fs k with
  | none => some (S d)
  | some (.jstr s) => if vals.any (fun v => S v = s) then some s else none
  | some _ => none

/-- `z.enum(["left","center","right"])` with a default, to the `Align` type. -/
def optAlignD (fs : List (String × Json)) (k : String) (d : Align) : Option Align :=
  match getKey fs k with
  | none => some d
  | some (.jstr s) =>
    if s = S "left" then some .left
    else if s = S "center" then some .center
    else if s = S "right" then some .right
    else none
  | some _ => none

/-- Abstraction of zod's `.url()` format test (see the section comment). -/
def urlOk (s : Str) : Bool := s.contains ':'

/-- Optional URL-string field (`z.string().url().optional()`). -/
def optUrl (fs : List (String × Json)) (k : String) : Option (Option Str) :=
  match getKey fs k with
  | none => some none
  | some (.jstr s) => if urlOk s then some (some s) else none
  | some _ => none

/-- The nine style slots read by the renderers, from a validated record. -/
def styleSlot (fs : List (String × Json)) (k : String) : Option Str :=
  match getKey fs k with
  | some (.jstr s) => some s
  | _ => none

/-- `StyleMap = z.record(z.string(), TW).optional()` (src/dist/schema.js
line 52): every value must be a string; the renderers then read the nine
slot keys. -/
def parseStyle (j : Option Json) : Option Style :=
  match j with
  | none => some {}
  | some (.jobj fs) =>
    if fs.all (fun f => match f.2 with | .jstr _ => true | _ => false) then
      some { wrapper := styleSlot fs "wrapper", title := styleSlot fs "title",
             text := styleSlot fs "text", hr := styleSlot fs "hr",
             label := styleSlot fs "label", thead := styleSlot fs "thead",
             container := styleSlot fs "container", img := styleSlot fs "img",
             caption := styleSlot fs "caption" }
    else none
  | some _ => none

/-- `z.union([z.string(), z.number(), z.null()])` for a table cell. -/
def parseCell : Json → Option Cell
  | .jstr s => some (.cstr s)
  | .jnum n => some (.cnum n)
  | .jnull => some .cnull
  | _ => none

def parseCells (xs : List Json) : Option (List Cell) :=
  xs.mapM parseCell

def parseRows (xs : List Json) : Option (List (List Cell)) :=
  xs.mapM (fun j => match j with
    | .jarr cs => parseCells cs
    | _ => none)

def parseHeaders (xs : List Json) : Option (List Str) :=
  xs.mapM (fun j => match j with
    | .jstr s => some s
    | _ => none)

/-- `z.enum(["xs","sm","md","lg","xl"]).default("md").optional()`: the outer
`.optional()` short-circuits a missing key to `undefined` before the inner
default applies, so a missing size stays unset. -/
def parseSpacerSize (fs : List (String × Json)) : Option (Option Size) :=
  match getKey fs "size" with
  | none => some none
  | some (.jstr s) =>
    if s = S "xs" then some (some .xs)
    else if s = S "sm" then some (some .sm)
    else if s = S "md" then some (some .md)
    else if s = S "lg" then some (some .lg)
    else if s = S "xl" then some (some .xl)
    else none
  | some _ => none

/-- `z.number().int().min(1).max(5).default(1).optional()` for signature
lines (same short-circuit for a missing key). -/
def parseSigLines (fs : List (String × Json)) : Option (Option Int) :=
  match getKey fs "lines" with
  | none => some none
  | some (.jnum n) => if 1 ≤ n ∧ n ≤ 5 then some (some n) else none
  | some _ => none

/-- The per-variant `props` validators of src/dist/schema.js lines 58-102,
selected by the `type` discriminator.  The union of lines 103-114 lists the
ten variants `header`, `subheader`, `date`, `para`, `divider`, `spacer`,
`pagebreak`, `signature`, `footerText`, `table` and nothing else; any other
discriminator value — `image` included — is rejected. -/
def parsePropsFor (t : Str) (p : Json) (st : Style) : Option Component :=
  match p with
  | .jobj fs =>
    if t = S "header" then
      if allowedKeys ["text"] fs then (reqStr fs "text").map (fun s => .header s st)
      else none
    else if t = S "subheader" then
      if allowedKeys ["text"] fs then (reqStr fs "text").map (fun s => .subheader s st)
      else none
    else if t = S "date" then
      if allowedKeys ["value"] fs then (optStr fs "value").map (fun v => .date v st)
      else none
    else if t = S "para" then
      if allowedKeys ["text"] fs then (reqStr fs "text").map (fun s => .para s st)
      else none
    else if t = S "divider" then
      if allowedKeys [] fs then some (.divider st) else none
    else if t = S "spacer" then
      if allowedKeys ["size"] fs then (parseSpacerSize fs).map (fun z => .spacer z st)
      else none
    else if t = S "pagebreak" then
      if allowedKeys [] fs then some (.pagebreak st) else none
    else if t = S "signature" then
      if allowedKeys ["label", "lines"] fs then
        match optStr fs "label", parseSigLines fs with
        | some lb, some ln => some (.signature lb ln st)
        | _, _ => none
      else none
    else if t = S "footerText" then
      if allowedKeys ["text"] fs then (reqStr fs "text").map (fun s => .footerText s st)
      else none
    else if t = S "table" then
      if allowedKeys ["title", "headers", "rows", "notes"] fs then
        match optStr fs "title", getKey fs "headers", getKey fs "rows", optStr fs "notes" with
        | some ti, some (.jarr hs), some (.jarr rs), some no =>
          match parseHeaders hs, parseRows rs with
          | some hs2, some rs2 => some (.table ti hs2 rs2 no st)
          | _, _ => none
        | _, _, _, _ => none
      else none
    else none
  | _ => none

/-- `Component` validation (src/dist/schema.js lines 53-114): the strict
base shape `{type, style, id}` extended with a required per-variant
`props`. -/
def parseComponent (j : Json) : Option Component :=
  match j with
  | .jobj fs =>
    if ¬ allowedKeys ["type", "style", "id", "props"] fs then none else
    match getKey fs "id" with
    | some (.jstr _) | none =>
      match parseStyle (getKey fs "style") with
      | some st =>
        match getKey fs "type", getKey fs "props" with
        | some (.jstr t), some p => parsePropsFor t p st
        | _, _ => none
      | none => none
    | some _ => none
  | _ => none

/-- `Colors` (src/dist/schema.js lines 45-51), strict with defaults;
`Colors.default({})` parses a missing object as `{}`. -/
def parseColors (j : Option Json) : Option Col :=
  match j.getD (.jobj []) with
  | .jobj fs =>
    if allowedKeys ["primary", "accent", "text", "muted", "border"] fs then
      match optStrD fs "primary" "#0F172A", optStrD fs "accent" "#2563EB",
            optStrD fs "text" "#111827", optStrD fs "muted" "#6B7280",
            optStrD fs "border" "#E5E7EB" with
      | some p, some a, some t, some m, some b =>
        some { primary := p, accent := a, text := t, muted := m, border := b }
      | _, _, _, _, _ => none
    else none
  | _ => none

/-- `Assets` (src/dist/schema.js lines 3-7): a non-strict partial object —
unknown keys (`backgroundImage` among them) are silently stripped, the
three known keys are optional URL strings. -/
def parseAssets (j : Option Json) : Option AssetsT :=
  match j.getD (.jobj []) with
  | .jobj fs =>
    match optUrl fs "headerImage", optUrl fs "footerImage", optUrl fs "logo" with
    | some hi, some fi, some lo =>
      some { logo := lo, headerImage := hi, footerImage := fi, backgroundImage := none }
    | _, _, _ => none
  | _ => none

def parsePageCfg (j : Option Json) : Option PageCfg :=
  match j.getD (.jobj []) with
  | .jobj fs =>
    if allowedKeys ["size", "orientation", "margin"] fs then
      match optEnumD fs "size" ["A4", "Letter"] "A4",
            optEnumD fs "orientation" ["portrait", "landscape"] "portrait",
            optStrD fs "margin" "20mm" with
      | some s, some o, some m => some { size := s, orientation := o, margin := m }
      | _, _, _ => none
    else none
  | _ => none

def parseFontCfg (j : Option Json) : Option FontCfg :=
  match j.getD (.jobj []) with
  | .jobj fs =>
    if allowedKeys ["family", "base", "leading"] fs then
      match optStrD fs "family" "Inter, ui-sans-serif, system-ui",
            optStrD fs "base" "text-[12pt]", optStrD fs "leading" "leading-relaxed" with
      | some f, some b, some l => some { family := f, base := b, leading := l }
      | _, _, _ => none
    else none
  | _ => none

def parseHeaderCfg (j : Option Json) : Option HeaderCfg :=
  match j.getD (.jobj []) with
  | .jobj fs =>
    if allowedKeys ["visible", "align", "repeat"] fs then
      match optBoolD fs "visible" true, optAlignD fs "align" .center,
            optEnumD fs "repeat" ["all", "first"] "all" with
      | some v, some a, some rm => some { visible := v, align := a, repeatMode := rm }
      | _, _, _ => none
    else none
  | _ => none

def parseFooterCfg (j : Option Json) : Option FooterCfg :=
  match j.getD (.jobj []) with
  | .jobj fs =>
    if allowedKeys ["visible", "text", "align"] fs then
      match optBoolD fs "visible" true,
            optStrD fs "text" "Page \x7b\x7bpage\x7d\x7d of \x7b\x7bpages\x7d\x7d",
            optAlignD fs "align" .center with
      | some v, some t, some a => some { visible := v, text := t, align := a }
      | _, _, _ => none
    else none
  | _ => none

def parseDateCfg (j : Option Json) : Option DateCfg :=
  match j.getD (.jobj []) with
  | .jobj fs =>
    if allowedKeys ["align", "format"] fs then
      match optAlignD fs "align" .right, optStrD fs "format" "DD MMM YYYY" with
      | some a, some f => some { align := a, format := f }
      | _, _ => none
    else none
  | _ => none

/-- `TableCfg` (src/dist/schema.js lines 32-36): strict over
`border`/`striped`/`compact` — in particular a `headerBg` key is rejected
as unrecognized, and the validated value never carries one. -/
def parseTableCfg (j : Option Json) : Option TableCfg :=
  match j.getD (.jobj []) with
  | .jobj fs =>
    if allowedKeys ["border", "striped", "compact"] fs then
      match optStrD fs "border" "border-2", optBoolD fs "striped" true,
            optBoolD fs "compact" false with
      | some b, some st, some c =>
        some { border := b, striped := st, compact := c, headerBg := none }
      | _, _, _ => none
    else none
  | _ => none

def parseConfigs (j : Option Json) : Option Cfg :=
  match j.getD (.jobj []) with
  | .jobj fs =>
    if allowedKeys ["page", "font", "header", "footer", "date", "table"] fs then
      match parsePageCfg (getKey fs "page"), parseFontCfg (getKey fs "font"),
            parseHeaderCfg (getKey fs "header"), parseFooterCfg (getKey fs "footer"),
            parseDateCfg (getKey fs "date"), parseTableCfg (getKey fs "table") with
      | some p, some f, some h, some ft, some d, some t =>
        some { page := p, font := f, header := h, footer := ft, date := d, table := t }
      | _, _, _, _, _, _ => none
    else none
  | _ => none

/-- `ReportSchema.safeParse` (src/dist/schema.js lines 115-122), as the
`Option`-valued validator: `some` is a successful parse to the defaulted
report, `none` a validation failure. -/
def parseReport (j : Json) : Option Report :=
  match j with
  | .jobj fs =>
    if allowedKeys ["company", "reportName", "colors", "assets", "configs", "components"] fs then
      match reqStr fs "company", reqStr fs "reportName",
            parseColors (getKey fs "colors"), parseAssets (getKey fs "assets"),
            parseConfigs (getKey fs "configs"), getKey fs "components" with
      | some co, some rn, some cl, some asx, some cf, some (.jarr comps) =>
        match comps.mapM parseComponent with
        | some cs =>
          if cs.length ≥ 1 then
            some { company := co, reportName := rn, colors := cl, assets := asx,
                   configs := cf, components := cs }
          else none
        | none => none
      | _, _, _, _, _, _ => none
    else none
  | _ => none

/-! ## Occurrence-exclusion machinery

To show a pattern `c0 :: pt` (such as `<script>` or `<img`) cannot occur in
an assembled markup string, each constituent piece is checked to be
`guarded`: wherever `c0` occurs in the piece, the following characters
disagree with `pt` before the piece ends.  Guardedness is preserved by
concatenation (the disagreement witnesses survive extension on the right),
holds vacuously for `c0`-free pieces, and excludes the pattern. -/

/-- `mism b pt`: the overlap of `b` and `pt` contains a disagreement. -/
def mism : Str → Str → Bool
  | _, [] => false
  | [], _ :: _ => false
  | b :: bs, p :: ps => (b != p) || mism bs ps

theorem mism_append (y : Str) : ∀ b pt, mism b pt = true → mism (b ++ y) pt = true := by
  intro b
  induction b with
  | nil => intro pt h; cases pt <;> simp [mism] at h
  | cons c bs ih =>
    intro pt h
    cases pt with
    | nil => simp [mism] at h
    | cons p ps =>
      simp only [mism, List.cons_append, Bool.or_eq_true, bne_iff_ne] at h ⊢
      rcases h with h | h
      · exact Or.inl h
      · exact Or.inr (ih ps h)

theorem mism_self : ∀ pt y : Str, mism (pt ++ y) pt = false := by
  intro pt
  induction pt with
  | nil => intro y; cases y <;> rfl
  | cons p ps ih =>
    intro y
    simp only [List.cons_append, mism, bne_self_eq_false, Bool.false_or]
    exact ih y

/-- Every occurrence of `c0` in `l` is followed, inside `l`, by a
disagreement with `pt`. -/
def guarded (c0 : Char) (pt : Str) (l : Str) : Prop :=
  ∀ a b, l = a ++ c0 :: b → mism b pt = true

theorem guarded_nil (c0 : Char) (pt : Str) : guarded c0 pt [] := by
  intro a b h
  cases a <;> simp at h

theorem guarded_of_not_mem {c0 : Char} {l : Str} (pt : Str) (h : c0 ∉ l) :
    guarded c0 pt l := by
  intro a b heq
  exact absurd (heq ▸ List.mem_append_right a (List.mem_cons_self c0 b)) h

theorem guarded_append {c0 : Char} {pt x y : Str}
    (hx : guarded c0 pt x) (hy : guarded c0 pt y) : guarded c0 pt (x ++ y) := by
  intro a b heq
  rcases List.append_eq_append_iff.mp heq with ⟨a2, ha, hb⟩ | ⟨c2, hx2, hy2⟩
  · -- the occurrence head sits inside y (or exactly at the junction)
    exact hy a2 b hb
  · -- `c0 :: b = c2 ++ y`: the head is the junction or lies inside x
    cases c2 with
    | nil =>
      simp only [List.nil_append] at hy2
      exact hy [] b hy2.symm
    | cons e es =>
      obtain ⟨rfl, hb⟩ : e = c0 ∧ b = es ++ y := by
        have := hy2
        simp only [List.cons_append, List.cons.injEq] at this
        exact ⟨this.1.symm, this.2⟩
      subst hb
      exact mism_append y es pt (hx a es hx2)

theorem guarded_flatten {c0 : Char} {pt : Str} :
    ∀ {L : List Str}, (∀ x ∈ L, guarded c0 pt x) → guarded c0 pt L.flatten := by
  intro L
  induction L with
  | nil => intro _; exact guarded_nil c0 pt
  | cons x xs ih =>
    intro h
    simp only [List.flatten_cons]
    exact guarded_append (h x (List.mem_cons_self x xs))
      (ih (fun z hz => h z (List.mem_cons_of_mem x hz)))

/-- Executable guardedness check, for the concrete literal pieces. -/
def bguard (c0 : Char) (pt : Str) : Str → Bool
  | [] => true
  | c :: rest => ((c != c0) || mism rest pt) && bguard c0 pt rest

theorem bguard_sound {c0 : Char} {pt : Str} :
    ∀ {l : Str}, bguard c0 pt l = true → guarded c0 pt l := by
  intro l
  induction l with
  | nil => intro _; exact guarded_nil c0 pt
  | cons c rest ih =>
    intro h a b heq
    simp only [bguard, Bool.and_eq_true, Bool.or_eq_true, bne_iff_ne] at h
    cases a with
    | nil =>
      simp only [List.nil_append, List.cons.injEq] at heq
      rcases h.1 with hc | hm
      · exact absurd heq.1 hc
      · exact heq.2 ▸ hm
    | cons a0 as =>
      simp only [List.cons_append, List.cons.injEq] at heq
      exact ih h.2 as b heq.2

/-- A guarded string has no occurrence of `c0 :: pt`. -/
theorem guarded_no_occ {c0 : Char} {pt l : Str} (hg : guarded c0 pt l) :
    ¬ ((c0 :: pt) <:+: l) := by
  intro hocc
  rcases hocc with ⟨s, t, heq⟩
  have hform : l = s ++ c0 :: (pt ++ t) := by
    rw [← heq]; simp
  have := hg s (pt ++ t) hform
  rw [mism_self] at this
  exact Bool.false_ne_true this

/-! ## Character-exclusion facts about `esc` -/

theorem not_mem_replAllC_self {p : Char} {r : Str} (hp : p ∉ r) :
    ∀ s, p ∉ replAllC p r s := by
  intro s
  induction s with
  | nil => simp [replAllC]
  | cons c cs ih =>
    simp only [replAllC, List.mem_append]
    intro h
    rcases h with h | h
    · by_cases hc : c = p
      · rw [if_pos hc] at h; exact hp h
      · rw [if_neg hc] at h
        simp only [List.mem_singleton] at h
        exact hc (h ▸ rfl)
    · exact ih h

theorem not_mem_replAllC_keep {c0 p : Char} {r : Str} (hr : c0 ∉ r) :
    ∀ {s}, c0 ∉ s → c0 ∉ replAllC p r s := by
  intro s
  induction s with
  | nil => intro _; simp [replAllC]
  | cons c cs ih =>
    intro hs
    simp only [List.mem_cons, not_or] at hs
    simp only [replAllC, List.mem_append]
    intro h
    rcases h with h | h
    · by_cases hc : c = p
      · rw [if_pos hc] at h; exact hr h
      · rw [if_neg hc] at h
        simp only [List.mem_singleton] at h
        exact hs.1 h
    · exact ih hs.2 h

theorem esc_no_lt (s : Str) : '<' ∉ esc s := by
  unfold esc
  apply not_mem_replAllC_keep (by decide)
  apply not_mem_replAllC_keep (by decide)
  apply not_mem_replAllC_keep (by decide)
  exact not_mem_replAllC_self (by decide) _

theorem esc_no_gt (s : Str) : '>' ∉ esc s := by
  unfold esc
  apply not_mem_replAllC_keep (by decide)
  apply not_mem_replAllC_keep (by decide)
  exact not_mem_replAllC_self (by decide) _

theorem esc_no_quot (s : Str) : '"' ∉ esc s := by
  unfold esc
  apply not_mem_replAllC_keep (by decide)
  exact not_mem_replAllC_self (by decide) _

theorem esc_no_apo (s : Str) : apo ∉ esc s := by
  unfold esc
  exact not_mem_replAllC_self (by decide) _

/-! ## Class lists keep out characters their inputs keep out -/

theorem sepSpace_not_mem {c0 : Char} (hc : c0 ≠ ' ') :
    ∀ {L : List Str}, (∀ x ∈ L, c0 ∉ x) → c0 ∉ sepSpace L := by
  intro L
  induction L with
  | nil => intro _; simp [sepSpace]
  | cons x rest ih =>
    intro h
    cases rest with
    | nil => simpa [sepSpace] using h x (List.mem_cons_self x [])
    | cons y ys =>
      simp only [sepSpace, List.mem_append, List.mem_cons, not_or]
      refine ⟨h x (List.mem_cons_self x _), hc, ?_⟩
      exact ih (fun z hz => h z (List.mem_cons_of_mem x hz))

theorem tw_not_mem {c0 : Char} (hc : c0 ≠ ' ') {cs : List (Option Str)}
    (h : ∀ s : Str, some s ∈ cs → c0 ∉ s) : c0 ∉ tw cs := by
  unfold tw
  apply sepSpace_not_mem hc
  intro x hx
  rw [List.mem_filter] at hx
  rcases List.mem_filterMap.mp hx.1 with ⟨o, ho, hid⟩
  exact h x (hid ▸ ho)

/-! ## Escaping safety of the rendered body

The hypotheses under which `renderBody` can contain no `<script>`: the
dynamic values that are inserted *without* escaping — style override
tokens, the table border / thead background tokens, the border color, the
font tokens, and image width/height sizing values — are free of `<`, the
image assets are absent, and the fixed footer band (whose configured text
is inserted raw) is not visible.  All component *text* fields stay
unconstrained: they pass through `esc`. -/

def NoLt (s : Str) : Prop := '<' ∉ s

def NoLtO (o : Option Str) : Prop := '<' ∉ o.getD []

def StyleOk (st : Style) : Prop :=
  NoLtO st.wrapper ∧ NoLtO st.title ∧ NoLtO st.text ∧ NoLtO st.hr ∧
  NoLtO st.label ∧ NoLtO st.thead ∧ NoLtO st.container ∧ NoLtO st.img ∧
  NoLtO st.caption

/-- Per-component safety: the style override tokens, and for images also
the raw-inserted width/height sizing values, contain no `<`. -/
def compOk : Component → Prop
  | .header _ st => StyleOk st
  | .subheader _ st => StyleOk st
  | .date _ st => StyleOk st
  | .para _ st => StyleOk st
  | .divider st => StyleOk st
  | .spacer _ st => StyleOk st
  | .pagebreak st => StyleOk st
  | .signature _ _ st => StyleOk st
  | .footerText _ st => StyleOk st
  | .table _ _ _ _ st => StyleOk st
  | .image _ _ _ w h st => StyleOk st ∧ NoLtO w ∧ NoLtO h

/-- The non-component dynamic inputs of `renderBody` that are inserted
raw. -/
def EscSafe (r : Report) : Prop :=
  NoLt r.colors.border ∧ NoLt r.configs.font.base ∧ NoLt r.configs.font.leading ∧
  NoLt r.configs.font.family ∧ NoLt r.configs.table.border ∧
  NoLtO r.configs.table.headerBg ∧
  r.assets.logo = none ∧ r.assets.headerImage = none ∧
  ∀ c ∈ r.components, compOk c

/-- The tail of the `<script>` pattern. -/
def scrT : Str := S "script>"

theorem tw_guard (pt : Str) {cs : List (Option Str)}
    (h : ∀ s : Str, some s ∈ cs → '<' ∉ s) : guarded '<' pt (tw cs) :=
  guarded_of_not_mem pt (tw_not_mem (by decide) h)

theorem tw2_g (pt : Str) {b : Str} {o : Option Str} (hb : '<' ∉ b)
    (ho : NoLtO o) : guarded '<' pt (tw [some b, o]) := by
  apply tw_guard
  intro s hs
  simp only [List.mem_cons, List.not_mem_nil, or_false] at hs
  rcases hs with hs | hs
  · injection hs with hs; exact hs ▸ hb
  · rw [← hs] at ho; exact ho

theorem tw3_g (pt : Str) {b1 b2 : Str} {o : Option Str} (h1 : '<' ∉ b1)
    (h2 : '<' ∉ b2) (ho : NoLtO o) : guarded '<' pt (tw [some b1, some b2, o]) := by
  apply tw_guard
  intro s hs
  simp only [List.mem_cons, List.not_mem_nil, or_false] at hs
  rcases hs with hs | hs | hs
  · injection hs with hs; exact hs ▸ h1
  · injection hs with hs; exact hs ▸ h2
  · rw [← hs] at ho; exact ho

theorem twoo_g (pt : Str) {o1 o2 : Option Str} (h1 : NoLtO o1) (h2 : NoLtO o2) :
    guarded '<' pt (tw [o1, o2]) := by
  apply tw_guard
  intro s hs
  simp only [List.mem_cons, List.not_mem_nil, or_false] at hs
  rcases hs with hs | hs
  · rw [← hs] at h1; exact h1
  · rw [← hs] at h2; exact h2

theorem esc_g (pt : Str) (s : Str) : guarded '<' pt (esc s) :=
  guarded_of_not_mem pt (esc_no_lt s)

theorem escCell_g (pt : Str) (c : Cell) : guarded '<' pt (escCell c) := by
  cases c with
  | cstr s => exact esc_g pt s
  | cnum n => exact esc_g pt _
  | cnull => exact guarded_nil '<' pt

theorem headerBlock_g (t : Str) (st : Style) (h : StyleOk st) :
    guarded '<' scrT (headerBlock t st) := by
  obtain ⟨hw, hti, _, _, _, _, _, _, _⟩ := h
  unfold headerBlock
  repeat first
    | exact esc_g scrT _
    | exact tw2_g scrT (by decide) hw
    | exact tw2_g scrT (by decide) hti
    | exact bguard_sound (by decide)
    | apply guarded_append

theorem subheaderBlock_g (t : Str) (st : Style) (h : StyleOk st) :
    guarded '<' scrT (subheaderBlock t st) := by
  obtain ⟨hw, hti, _, _, _, _, _, _, _⟩ := h
  unfold subheaderBlock
  repeat first
    | exact esc_g scrT _
    | exact tw2_g scrT (by decide) hw
    | exact tw2_g scrT (by decide) hti
    | exact bguard_sound (by decide)
    | apply guarded_append

theorem dateBlock_g (v : Option Str) (st : Style) (cfg : Cfg) (now : Now)
    (h : StyleOk st) : guarded '<' scrT (dateBlock v st cfg now) := by
  obtain ⟨hw, _, hte, _, _, _, _, _, _⟩ := h
  unfold dateBlock
  have ha : '<' ∉ alignFlex cfg.date.align := by cases cfg.date.align <;> decide
  repeat first
    | exact esc_g scrT _
    | exact tw3_g scrT (by decide) ha hw
    | exact tw2_g scrT (by decide) hte
    | exact bguard_sound (by decide)
    | apply guarded_append

theorem paraBlock_g (t : Str) (st : Style) (h : StyleOk st) :
    guarded '<' scrT (paraBlock t st) := by
  obtain ⟨hw, _, hte, _, _, _, _, _, _⟩ := h
  unfold paraBlock
  repeat first
    | exact esc_g scrT _
    | exact tw2_g scrT (by decide) hw
    | exact tw2_g scrT (by decide) hte
    | exact bguard_sound (by decide)
    | apply guarded_append

theorem dividerBlock_g (colors : Col) (st : Style) (h : StyleOk st)
    (hb : NoLt colors.border) : guarded '<' scrT (dividerBlock colors st) := by
  obtain ⟨_, _, _, hhr, _, _, _, _, _⟩ := h
  unfold dividerBlock
  repeat first
    | exact guarded_of_not_mem scrT hb
    | exact tw2_g scrT (by decide) hhr
    | exact bguard_sound (by decide)
    | apply guarded_append

theorem spacerBlock_g (sz : Option Size) (st : Style) (h : StyleOk st) :
    guarded '<' scrT (spacerBlock sz st) := by
  obtain ⟨hw, _, _, _, _, _, _, _, _⟩ := h
  unfold spacerBlock
  have hh : '<' ∉ spacerHeight (sz.getD .md) := by
    cases hz : sz.getD .md <;> decide
  repeat first
    | exact tw2_g scrT hh hw
    | exact bguard_sound (by decide)
    | apply guarded_append

theorem pagebreakBlock_g : guarded '<' scrT pagebreakBlock :=
  bguard_sound (by decide)

theorem signatureLine_g (colors : Col) (hb : NoLt colors.border) :
    guarded '<' scrT (signatureLine colors) := by
  unfold signatureLine
  repeat first
    | exact guarded_of_not_mem scrT hb
    | exact bguard_sound (by decide)
    | apply guarded_append

theorem sigLines_g (lines : Option Int) (colors : Col) (hb : NoLt colors.border) :
    guarded '<' scrT (sigLines lines colors) := by
  unfold sigLines
  apply guarded_flatten
  intro x hx
  rw [List.eq_of_mem_replicate hx]
  exact signatureLine_g colors hb

theorem signatureBlock_g (lb : Option Str) (ln : Option Int) (st : Style)
    (colors : Col) (h : StyleOk st) (hb : NoLt colors.border) :
    guarded '<' scrT (signatureBlock lb ln st colors) := by
  obtain ⟨hw, _, _, _, hla, _, _, _, _⟩ := h
  unfold signatureBlock
  repeat first
    | exact esc_g scrT _
    | exact sigLines_g ln colors hb
    | exact tw2_g scrT (by decide) hw
    | exact tw2_g scrT (by decide) hla
    | exact bguard_sound (by decide)
    | apply guarded_append

theorem footerTextBlock_g (t : Str) (st : Style) (h : StyleOk st) :
    guarded '<' scrT (footerTextBlock t st) := by
  obtain ⟨_, _, hte, _, _, _, _, _, _⟩ := h
  unfold footerTextBlock
  repeat first
    | exact esc_g scrT _
    | exact tw2_g scrT (by decide) hte
    | exact bguard_sound (by decide)
    | apply guarded_append

theorem tableCompact_no_lt (cfg : Cfg) : '<' ∉ tableCompact cfg := by
  unfold tableCompact
  split <;> decide

theorem thCell_g (compact : Str) (colors : Col) (hh : Str)
    (hc : '<' ∉ compact) (hb : NoLt colors.border) :
    guarded '<' scrT (thCell compact colors hh) := by
  unfold thCell
  repeat first
    | exact esc_g scrT _
    | exact guarded_of_not_mem scrT hc
    | exact guarded_of_not_mem scrT hb
    | exact bguard_sound (by decide)
    | apply guarded_append

theorem tdCell_g (compact : Str) (colors : Col) (c : Cell)
    (hc : '<' ∉ compact) (hb : NoLt colors.border) :
    guarded '<' scrT (tdCell compact colors c) := by
  unfold tdCell
  repeat first
    | exact escCell_g scrT _
    | exact guarded_of_not_mem scrT hc
    | exact guarded_of_not_mem scrT hb
    | exact bguard_sound (by decide)
    | apply guarded_append

theorem bodyRow_g (compact : Str) (cfg : Cfg) (colors : Col) (i : Nat)
    (row : List Cell) (hc : '<' ∉ compact) (hb : NoLt colors.border) :
    guarded '<' scrT (bodyRow compact cfg colors i row) := by
  unfold bodyRow
  have hbg : guarded '<' scrT
      (if cfg.table.striped ∧ i % 2 = 1 then S "bg-gray-50" else []) := by
    split
    · exact bguard_sound (by decide)
    · exact guarded_nil '<' scrT
  have htds : guarded '<' scrT ((row.map (tdCell compact colors)).flatten) := by
    apply guarded_flatten
    intro x hx
    rcases List.mem_map.mp hx with ⟨c, _, rfl⟩
    exact tdCell_g compact colors c hc hb
  repeat first
    | exact hbg
    | exact htds
    | exact bguard_sound (by decide)
    | apply guarded_append

theorem theadCells_g (cfg : Cfg) (colors : Col) (headers : List Str)
    (hb : NoLt colors.border) : guarded '<' scrT (theadCells cfg colors headers) := by
  unfold theadCells
  apply guarded_flatten
  intro x hx
  rcases List.mem_map.mp hx with ⟨hh, _, rfl⟩
  exact thCell_g _ colors hh (tableCompact_no_lt cfg) hb

theorem tbodyRows_g (cfg : Cfg) (colors : Col) (rows : List (List Cell))
    (hb : NoLt colors.border) : guarded '<' scrT (tbodyRows cfg colors rows) := by
  unfold tbodyRows
  apply guarded_flatten
  intro x hx
  rcases List.mem_map.mp hx with ⟨p, _, rfl⟩
  exact bodyRow_g _ cfg colors p.1 p.2 (tableCompact_no_lt cfg) hb

theorem tableTitleHtml_g (title : Option Str) (st : Style) (hti : NoLtO st.title) :
    guarded '<' scrT (tableTitleHtml title st) := by
  cases title with
  | none => exact guarded_nil '<' scrT
  | some t =>
    simp only [tableTitleHtml]
    by_cases ht : t = []
    · rw [if_pos ht]; exact guarded_nil '<' scrT
    · rw [if_neg ht]
      repeat first
        | exact esc_g scrT _
        | exact tw2_g scrT (by decide) hti
        | exact bguard_sound (by decide)
        | apply guarded_append

theorem tableNotesHtml_g (notes : Option Str) :
    guarded '<' scrT (tableNotesHtml notes) := by
  cases notes with
  | none => exact guarded_nil '<' scrT
  | some t =>
    simp only [tableNotesHtml]
    by_cases ht : t = []
    · rw [if_pos ht]; exact guarded_nil '<' scrT
    · rw [if_neg ht]
      repeat first
        | exact esc_g scrT _
        | exact bguard_sound (by decide)
        | apply guarded_append

theorem theadRowHtml_g (cfg : Cfg) (colors : Col) (headers : List Str)
    (hb : NoLt colors.border) : guarded '<' scrT (theadRowHtml cfg colors headers) := by
  unfold theadRowHtml
  split
  · exact guarded_nil '<' scrT
  · exact guarded_append (guarded_append (bguard_sound (by decide))
      (theadCells_g cfg colors headers hb)) (bguard_sound (by decide))

theorem tableBlock_g (title : Option Str) (headers : List Str)
    (rows : List (List Cell)) (notes : Option Str) (st : Style) (cfg : Cfg)
    (colors : Col) (h : StyleOk st) (hb : NoLt colors.border)
    (htb : NoLt cfg.table.border) (hbg : NoLtO cfg.table.headerBg) :
    guarded '<' scrT (tableBlock title headers rows notes st cfg colors) := by
  obtain ⟨hw, hti, _, _, _, hth, hco, _, _⟩ := h
  have g1 : guarded '<' scrT (S "\n<section class=\"") := bguard_sound (by decide)
  have g2 : guarded '<' scrT (tw [some (S "my-4"), st.wrapper]) :=
    tw2_g scrT (by decide) hw
  have g3 : guarded '<' scrT (S "\">\n  ") := bguard_sound (by decide)
  have g4 := tableTitleHtml_g title st hti
  have g5 : guarded '<' scrT (S "\n  <div class=\"") := bguard_sound (by decide)
  have g6 : guarded '<' scrT (tw [some (S "tbl-wrap overflow-x-auto"), st.container]) :=
    tw2_g scrT (by decide) hco
  have g7 : guarded '<' scrT (S "\">\n    <table class=\"") := bguard_sound (by decide)
  have g8 : guarded '<' scrT
      (tw [some (S "tbl w-full border-collapse"), some cfg.table.border]) :=
    tw2_g scrT (by decide) htb
  have g9 : guarded '<' scrT (S "\"\n           style=\"border-color:") :=
    bguard_sound (by decide)
  have g10 : guarded '<' scrT colors.border := guarded_of_not_mem scrT hb
  have g11 : guarded '<' scrT (S "\">\n      <thead class=\"") := bguard_sound (by decide)
  have g12 : guarded '<' scrT (theadClassOf st cfg) := twoo_g scrT hth hbg
  have g13 : guarded '<' scrT (S "\">\n        ") := bguard_sound (by decide)
  have g14 := theadRowHtml_g cfg colors headers hb
  have g15 : guarded '<' scrT (S "\n      </thead>\n      <tbody>") :=
    bguard_sound (by decide)
  have g16 := tbodyRows_g cfg colors rows hb
  have g17 : guarded '<' scrT (S "</tbody>\n    </table>\n  </div>\n  ") :=
    bguard_sound (by decide)
  have g18 := tableNotesHtml_g notes
  have g19 : guarded '<' scrT (S "\n</section>") := bguard_sound (by decide)
  exact guarded_append (guarded_append (guarded_append (guarded_append
    (guarded_append (guarded_append (guarded_append (guarded_append
    (guarded_append (guarded_append (guarded_append (guarded_append
    (guarded_append (guarded_append (guarded_append (guarded_append
    (guarded_append (guarded_append g1 g2) g3) g4) g5) g6) g7) g8) g9)
    g10) g11) g12) g13) g14) g15) g16) g17) g18) g19

theorem widthPart_g (width : Option Str) (hwd : NoLtO width) :
    guarded '<' scrT (widthPart width) := by
  cases width with
  | none => exact guarded_nil '<' scrT
  | some w =>
    unfold widthPart
    repeat first
      | exact guarded_of_not_mem scrT hwd
      | exact bguard_sound (by decide)
      | apply guarded_append

theorem heightPart_g (height : Option Str) (hht : NoLtO height) :
    guarded '<' scrT (heightPart height) := by
  cases height with
  | none => exact guarded_nil '<' scrT
  | some hv =>
    unfold heightPart
    repeat first
      | exact guarded_of_not_mem scrT hht
      | exact bguard_sound (by decide)
      | apply guarded_append

theorem imgSizing_g (width height : Option Str) (hwd : NoLtO width)
    (hht : NoLtO height) : guarded '<' scrT (imgSizing width height) :=
  guarded_append (widthPart_g width hwd) (heightPart_g height hht)

theorem imgCaption_g (caption : Option Str) (st : Style) (hca : NoLtO st.caption) :
    guarded '<' scrT (imgCaption caption st) := by
  cases caption with
  | none => exact guarded_nil '<' scrT
  | some t =>
    simp only [imgCaption]
    by_cases ht : t = []
    · rw [if_pos ht]; exact guarded_nil '<' scrT
    · rw [if_neg ht]
      repeat first
        | exact esc_g scrT _
        | exact tw2_g scrT (by decide) hca
        | exact bguard_sound (by decide)
        | apply guarded_append

theorem imageBlock_g (url : Str) (alt caption width height : Option Str)
    (st : Style) (h : StyleOk st) (hwd : NoLtO width) (hht : NoLtO height) :
    guarded '<' scrT (imageBlock url alt caption width height st) := by
  obtain ⟨hw, _, _, _, _, _, _, him, hca⟩ := h
  unfold imageBlock
  repeat first
    | exact esc_g scrT _
    | exact imgSizing_g width height hwd hht
    | exact imgCaption_g caption st hca
    | exact tw2_g scrT (by decide) hw
    | exact tw2_g scrT (by decide) him
    | exact bguard_sound (by decide)
    | apply guarded_append

/-- Every rendered component fragment is guarded under the safety
hypotheses. -/
theorem renderComp_g (cfg : Cfg) (colors : Col) (now : Now) (c : Component)
    (h : compOk c) (hb : NoLt colors.border) (htb : NoLt cfg.table.border)
    (hbg : NoLtO cfg.table.headerBg) :
    guarded '<' scrT (renderComp cfg colors now c) := by
  cases c with
  | header t st => exact headerBlock_g t st h
  | subheader t st => exact subheaderBlock_g t st h
  | date v st => exact dateBlock_g v st cfg now h
  | para t st => exact paraBlock_g t st h
  | divider st => exact dividerBlock_g colors st h hb
  | spacer sz st => exact spacerBlock_g sz st h
  | pagebreak st => exact pagebreakBlock_g
  | signature lb ln st => exact signatureBlock_g lb ln st colors h hb
  | footerText t st => exact footerTextBlock_g t st h
  | table ti hs rs no st => exact tableBlock_g ti hs rs no st cfg colors h hb htb hbg
  | image u a cp w hh st => exact imageBlock_g u a cp w hh st h.1 h.2.1 h.2.2

theorem firstPageHeader_g (r : Report) (hb : NoLt r.colors.border)
    (hlo : r.assets.logo = none) (hhi : r.assets.headerImage = none) :
    guarded '<' scrT (firstPageHeader r) := by
  unfold firstPageHeader
  split
  · have h1 : logoImgFirst r = [] := by
      unfold logoImgFirst
      rw [hlo]
      rfl
    have h2 : headerImgFirst r =
        S "<div class=\"text-xl font-semibold\">" ++ escapeHtml r.reportName ++ S "</div>" := by
      unfold headerImgFirst
      rw [hhi]
      rfl
    rw [h1, h2]
    have hal : '<' ∉ r.configs.header.align.str := by
      cases r.configs.header.align <;> decide
    repeat first
      | exact esc_g scrT _
      | exact guarded_of_not_mem scrT hb
      | exact guarded_of_not_mem scrT hal
      | exact guarded_nil '<' scrT
      | exact bguard_sound (by decide)
      | apply guarded_append
  · exact guarded_nil '<' scrT

theorem fixedHeader_g (r : Report) (hb : NoLt r.colors.border)
    (hlo : r.assets.logo = none) (hhi : r.assets.headerImage = none) :
    guarded '<' scrT (fixedHeader r) := by
  unfold fixedHeader
  split
  · have h1 : logoImgFirst r = [] := by
      unfold logoImgFirst
      rw [hlo]
      rfl
    have h2 : headerImgFixed r =
        S "<div class=\"font-semibold\">" ++ escapeHtml r.reportName ++ S "</div>" := by
      unfold headerImgFixed
      rw [hhi]
      rfl
    rw [h1, h2]
    have hal : '<' ∉ r.configs.header.align.str := by
      cases r.configs.header.align <;> decide
    repeat first
      | exact esc_g scrT _
      | exact guarded_of_not_mem scrT hb
      | exact guarded_of_not_mem scrT hal
      | exact guarded_nil '<' scrT
      | exact bguard_sound (by decide)
      | apply guarded_append
  · exact guarded_nil '<' scrT

/-- Claim C1's amended positive half, as a guardedness statement: under
`EscSafe` and an invisible footer, the whole body markup is guarded. -/
theorem renderBody_g (r : Report) (now : Now) (hs : EscSafe r)
    (hf : r.configs.footer.visible = false) :
    guarded '<' scrT (renderBody r now) := by
  obtain ⟨hb, hfb, hfl, hff, htb, hbg, hlo, hhi, hcs⟩ := hs
  unfold renderBody
  have hfoot : fixedFooter r = [] := by
    unfold fixedFooter
    rw [hf]
    rfl
  rw [hfoot]
  have hparts : guarded '<' scrT
      ((r.components.map (renderComp r.configs r.colors now)).flatten) := by
    apply guarded_flatten
    intro x hx
    rcases List.mem_map.mp hx with ⟨c, hc, rfl⟩
    exact renderComp_g r.configs r.colors now c (hcs c hc) hb htb hbg
  unfold mainWrap
  repeat first
    | exact hparts
    | exact firstPageHeader_g r hb hlo hhi
    | exact fixedHeader_g r hb hlo hhi
    | exact guarded_of_not_mem scrT hfb
    | exact guarded_of_not_mem scrT hfl
    | exact guarded_of_not_mem scrT hff
    | exact guarded_nil '<' scrT
    | exact bguard_sound (by decide)
    | apply guarded_append

/-! ## Decidability of the safety predicates -/

instance (s : Str) : Decidable (NoLt s) :=
  inferInstanceAs (Decidable ('<' ∉ s))

instance (o : Option Str) : Decidable (NoLtO o) :=
  inferInstanceAs (Decidable ('<' ∉ o.getD []))

instance (st : Style) : Decidable (StyleOk st) := by
  unfold StyleOk
  infer_instance

instance (c : Component) : Decidable (compOk c) := by
  cases c with
  | image u a cp w hh st =>
    exact inferInstanceAs (Decidable (StyleOk st ∧ NoLtO w ∧ NoLtO hh))
  | header t st => exact inferInstanceAs (Decidable (StyleOk st))
  | subheader t st => exact inferInstanceAs (Decidable (StyleOk st))
  | date v st => exact inferInstanceAs (Decidable (StyleOk st))
  | para t st => exact inferInstanceAs (Decidable (StyleOk st))
  | divider st => exact inferInstanceAs (Decidable (StyleOk st))
  | spacer sz st => exact inferInstanceAs (Decidable (StyleOk st))
  | pagebreak st => exact inferInstanceAs (Decidable (StyleOk st))
  | signature lb ln st => exact inferInstanceAs (Decidable (StyleOk st))
  | footerText t st => exact inferInstanceAs (Decidable (StyleOk st))
  | table ti hs rs no st => exact inferInstanceAs (Decidable (StyleOk st))

instance (r : Report) : Decidable (EscSafe r) := by
  unfold EscSafe
  infer_instance

/-! ## Determinism helpers (claim C2)

The only renderer branch that reads the clock is `dateFmt`'s missing-value
branch; a component is clock-free when it is not a `date` without a
`value`. -/

/-- Whether a component avoids the clock-reading branch. -/
def hasValue : Component → Bool
  | .date none _ => false
  | _ => true

theorem renderComp_now_eq (cfg : Cfg) (colors : Col) (n1 n2 : Now)
    (c : Component) (h : hasValue c = true) :
    renderComp cfg colors n1 c = renderComp cfg colors n2 c := by
  cases c
  case date v st =>
    cases v
    case none => simp [hasValue] at h
    case some s => rfl
  all_goals rfl

/-! ## Occurrence counting and shape checks -/

/-- The number of positions of `l` at which `pat` starts. -/
def cnt (pat : Str) : Str → Nat
  | [] => if pat = [] then 1 else 0
  | c :: rest => (if pat <+: (c :: rest) then 1 else 0) + cnt pat rest

/-- The "DD Mon YYYY" shape of claim C9: a two-digit day, a space, one of
the twelve English month abbreviations, a space, and a four-digit year. -/
def ddMonShape (s : Str) : Bool :=
  match s with
  | [d1, d2, sp1, m1, m2, m3, sp2, y1, y2, y3, y4] =>
    isDigit d1 ∧ isDigit d2 ∧ sp1 = ' ' ∧
    monthMap.any (fun m => m = [m1, m2, m3]) ∧ sp2 = ' ' ∧
    isDigit y1 ∧ isDigit y2 ∧ isDigit y3 ∧ isDigit y4
  | _ => false

/-! ## Concrete fixtures

The defaulted colors and configs exactly as `ReportSchema` produces them
(cross-checked against the schema model in claim C3's theorem), a fixed
clock value, and oracles for the hydration claims. -/

def defColors : Col :=
  { primary := S "#0F172A", accent := S "#2563EB", text := S "#111827",
    muted := S "#6B7280", border := S "#E5E7EB", background := none }

def defCfg : Cfg :=
  { page := { size := S "A4", orientation := S "portrait", margin := S "20mm" }
    font := { family := S "Inter, ui-sans-serif, system-ui",
              base := S "text-[12pt]", leading := S "leading-relaxed" }
    header := { visible := true, align := .center, repeatMode := S "all" }
    footer := { visible := true, text := S "Page \x7b\x7bpage\x7d\x7d of \x7b\x7bpages\x7d\x7d",
                align := .center }
    date := { align := .right, format := S "DD MMM YYYY" }
    table := { border := S "border-2", striped := true, compact := false, headerBg := none } }

def now0 : Now := ⟨2026, 10, 11⟩

/-- An oracle on which every fetch fails. -/
def oFail : Oracle := fun _ => none

def tplNone : TplAssets := ⟨none, none, none⟩

/-! ## Claim C1 -/

/-- A validated-shape report whose fixed footer band is visible and whose
configured footer text is `<script>`; everything else is at the schema
defaults (header hidden so only the footer band carries dynamic text). -/
def cx1 : Report :=
  { company := S "c", reportName := S "r", colors := defColors, assets := {},
    configs := { defCfg with
      header := { defCfg.header with visible := false }
      footer := { visible := true, text := S "<script>", align := .center } }
    components := [.para (S "hi") {}] }

set_option maxRecDepth 4096 in
/-- Claim C1, counterexample: the configured footer text shown in the fixed
footer band is inserted without escaping — for footer text `<script>` the
produced markup contains the raw substring `<script>` and not its escaped
form `&lt;script&gt;`, refuting that every user-supplied string value is
HTML-escaped before insertion. -/
theorem claim1_counterexample :
    (S "<script>" <:+: renderBody cx1 now0) ∧
    ¬ (S "&lt;script&gt;" <:+: renderBody cx1 now0) := by decide

/-- Claim C1, amended: the `esc` chokepoint removes all raw `<`, `>`, `"`
and `'` characters, and every component text field passes through it, so a
report whose raw-inserted tokens (style overrides, image sizing, border
color, font and table tokens) are `<`-free, whose image assets are unset,
and whose fixed footer band is *not* visible renders to markup with no
`<script>` occurrence at all — the escaping guarantee holds for component
text but not for the footer band's configured text, which is inserted
unescaped. -/
theorem claim1_amended :
    (∀ s : Str, '<' ∉ esc s ∧ '>' ∉ esc s ∧ '"' ∉ esc s ∧ apo ∉ esc s) ∧
    ∀ (r : Report) (now : Now), EscSafe r → r.configs.footer.visible = false →
      ¬ (S "<script>" <:+: renderBody r now) := by
  constructor
  · intro s
    exact ⟨esc_no_lt s, esc_no_gt s, esc_no_quot s, esc_no_apo s⟩
  · intro r now hs hf
    exact guarded_no_occ (renderBody_g r now hs hf)

/-- A report whose every text field — the report name included — contains
`<script>`, with the footer band hidden and no style overrides. -/
def rw1 : Report :=
  { company := S "c", reportName := S "<script>", colors := defColors, assets := {},
    configs := { defCfg with footer := { defCfg.footer with visible := false } }
    components :=
      [.header (S "<script>") {}, .subheader (S "<script>") {},
       .date (some (S "<script>")) {}, .date none {}, .para (S "<script>") {},
       .divider {}, .spacer none {}, .pagebreak {},
       .signature (some (S "<script>")) (some 2) {}, .footerText (S "<script>") {},
       .table (some (S "<script>")) [S "<script>"]
         [[.cstr (S "<script>"), .cnum 7, .cnull]] (some (S "<script>")) {},
       .image (S "<script>") (some (S "<script>")) (some (S "<script>")) none none {}] }

/-- Witness for claim C1's amended theorem at a concrete hostile report. -/
theorem claim1_amended_witness :
    EscSafe rw1 ∧ rw1.configs.footer.visible = false ∧
    ¬ (S "<script>" <:+: renderBody rw1 now0) :=
  ⟨by decide, rfl, claim1_amended.2 rw1 now0 (by decide) rfl⟩

/-! ## Claim C2 -/

/-- A validated-shape report containing a `date` component with no
`value`. -/
def cd2 : Report :=
  { company := S "c", reportName := S "r", colors := defColors, assets := {},
    configs := defCfg, components := [.date none {}] }

set_option maxRecDepth 8192 in
/-- Claim C2, counterexample: a report holding a `date` component without a
`value` renders the *current* date (`dateFmt`'s missing-value branch reads
the clock), so two evaluations of `renderBody` on the identical validated
input at different times produce different markup. -/
theorem claim2_counterexample :
    renderBody cd2 ⟨2024, 1, 1⟩ ≠ renderBody cd2 ⟨2024, 1, 2⟩ := by decide

/-- Claim C2, amended: `renderBody` is deterministic — independent of the
clock — for every report whose `date` components all carry a `value`
(present values, parseable or not, never consult the clock); `renderHead`
is a function of the report alone and reads no clock at all.  A report
containing a `date` component with an absent `value` is rendered from the
current date, so byte-identical output across evaluations is not
guaranteed for those. -/
theorem claim2_amended : ∀ (r : Report) (n1 n2 : Now),
    (∀ c ∈ r.components, hasValue c = true) →
    renderBody r n1 = renderBody r n2 := by
  intro r n1 n2 h
  have hm : r.components.map (renderComp r.configs r.colors n1)
      = r.components.map (renderComp r.configs r.colors n2) :=
    List.map_congr_left (fun c hc => renderComp_now_eq _ _ _ _ c (h c hc))
  unfold renderBody mainWrap
  rw [hm]

/-- A report whose date component carries a value, for the witness. -/
def rw2 : Report :=
  { cd2 with components := [.date (some (S "2024-03-09")) {}, .para (S "x") {}] }

/-- Witness for claim C2's amended theorem at two different clock values. -/
theorem claim2_amended_witness :
    (∀ c ∈ rw2.components, hasValue c = true) ∧
    renderBody rw2 ⟨2024, 1, 1⟩ = renderBody rw2 ⟨2025, 5, 5⟩ :=
  ⟨by decide, claim2_amended rw2 ⟨2024, 1, 1⟩ ⟨2025, 5, 5⟩ (by decide)⟩

/-! ## Claim C3 -/

/-- The JSON of an `image` component: `type` discriminator `image`, props
`url` (with the optional fields omitted). -/
def jImgComp : Json :=
  .jobj [("type", .jstr (S "image")),
         ("props", .jobj [("url", .jstr (S "http://x/a.png"))])]

/-- A report JSON that is valid in every respect except that its single
component is the `image` component above. -/
def jImg : Json :=
  .jobj [("company", .jstr (S "c")), ("reportName", .jstr (S "r")),
         ("components", .jarr [jImgComp])]

/-- The same report with the image swapped for a `para` component —
otherwise identical. -/
def jPar : Json :=
  .jobj [("company", .jstr (S "c")), ("reportName", .jstr (S "r")),
         ("components", .jarr [.jobj [("type", .jstr (S "para")),
                                      ("props", .jobj [("text", .jstr (S "hi"))])]])]

/-- Claim C3, evaluation at the failing input: the shipped validator's
`Component` union (src/dist/schema.js lines 103-114) has no `image`
variant, so the otherwise-valid report carrying an `image` component is
rejected (`safeParse` fails on the discriminator) while the identical
report with a `para` component validates to the fully-defaulted report;
yet the renderer does support the variant — `renderBody`'s dispatch sends
an `image` component to `imageBlock`, whose fragment is an `<img>`
element with the escaped url. -/
theorem claim3_eval :
    parseComponent jImgComp = none ∧
    parseReport jImg = none ∧
    parseReport jPar = some
      { company := S "c", reportName := S "r", colors := defColors, assets := {},
        configs := defCfg, components := [.para (S "hi") {}] } ∧
    (S "<img src=\"http://x/a.png\"" <:+:
      renderComp defCfg defColors now0
        (.image (S "http://x/a.png") none none none none {})) := by decide

/-! ## Claim C4 -/

/-- A report whose `assets.logo` is an unreachable remote URL. -/
def r4 : Report :=
  { company := S "c", reportName := S "r", colors := defColors,
    assets := { logo := some (S "http://x/a.png") },
    configs := defCfg, components := [.para (S "hi") {}] }

set_option maxRecDepth 8192 in
/-- Claim C4, counterexample: in the part_000 pipeline a failed retrieval
does *not* leave the asset field unset — `hydrateAssets` restores the
original URL (`(await toDataUri(u)) ?? u`), the hydrated report equals the
input, and the subsequent `renderBody` still emits the `<img>` element
with the unreachable URL instead of omitting the image. -/
theorem claim4_counterexample :
    (hydrateAssets r4 oFail).assets.logo = some (S "http://x/a.png") ∧
    hydrateAssets r4 oFail = r4 ∧
    (S "<img src=\"http://x/a.png\"" <:+: renderBody (hydrateAssets r4 oFail) now0) := by
  decide

theorem hydRef_fail (u : Option Str) (o : Oracle) (h : ∀ x, o x = none) :
    hydRef u o = u := by
  cases u with
  | none => rfl
  | some s =>
    simp only [hydRef, toDataUri, h]
    split
    · rename_i t heq
      split at heq
      · injection heq with h2
        rw [h2]
      · cases heq
    · rfl

theorem hydrateComp_fail (o : Oracle) (h : ∀ x, o x = none) (c : Component) :
    hydrateComp o c = c := by
  cases c
  case image u a cp w hh st =>
    simp only [hydrateComp, toDataUri, h]
    split
    · rename_i t heq
      split at heq
      · injection heq with h2
        rw [h2]
      · cases heq
    · rfl
  all_goals rfl

theorem hydrateAssets_fail (r : Report) (o : Oracle) (h : ∀ x, o x = none) :
    hydrateAssets r o = r := by
  unfold hydrateAssets
  rw [hydRef_fail _ o h, hydRef_fail _ o h, hydRef_fail _ o h, hydRef_fail _ o h]
  rw [show r.components.map (hydrateComp o) = r.components.map id from
        List.map_congr_left (fun c _ => hydrateComp_fail o h c),
      List.map_id]

/-- The opening div of the header pagination fragment is guarded against
`<img` when its raw color/font insertions are `<`-free. -/
theorem headerTplOpen_g (r : Report) (ht : NoLt r.colors.text)
    (hb : NoLt r.colors.border) (hf : NoLt r.configs.font.family) :
    guarded '<' (S "img") (headerTplOpen r) := by
  unfold headerTplOpen
  have hj : '<' ∉ justifyCSS r.configs.header.align := by
    cases r.configs.header.align <;> decide
  repeat first
    | exact guarded_of_not_mem (S "img") ht
    | exact guarded_of_not_mem (S "img") hb
    | exact guarded_of_not_mem (S "img") hf
    | exact guarded_of_not_mem (S "img") hj
    | exact bguard_sound (by decide)
    | apply guarded_append

/-- Claim C4, amended: in the `buildTemplateAssets` pipeline
(src/src/server.ts) every failed retrieval yields `null` — the template
asset is unset — and the header fragment built from unset assets contains
no `<img>` element and falls back to the escaped report name; but in the
`hydrateAssets` pipeline (src/unnamed/part_000) failure leaves every field
holding its original value (the whole report is returned unchanged, URL
references included), rather than unset. -/
theorem claim4_amended : ∀ (r : Report) (o : Oracle), (∀ u, o u = none) →
    buildTemplateAssets r o = tplNone ∧
    hydrateAssets r o = r ∧
    (r.configs.header.visible = true → NoLt r.colors.text → NoLt r.colors.border →
      NoLt r.configs.font.family →
      (escapeHtml r.reportName <:+: headerTemplate r tplNone) ∧
      ¬ (S "<img" <:+: headerTemplate r tplNone)) := by
  intro r o h
  refine ⟨?_, hydrateAssets_fail r o h, ?_⟩
  · simp [buildTemplateAssets, urlToDataUri, h, tplNone, ite_self]
  · intro hv hct hcb hff
    have hT : headerTemplate r tplNone =
        headerTplOpen r ++ (S "<div style=\"font-weight:600;\">" ++
          escapeHtml r.reportName ++ S "</div>") ++ S "\n</div>" := by
      simp [headerTemplate, hv, headerTplLogo, headerTplTitle, isTruthy, tplNone]
    constructor
    · rw [hT]
      exact ⟨headerTplOpen r ++ S "<div style=\"font-weight:600;\">",
             S "</div>" ++ S "\n</div>", by simp [List.append_assoc]⟩
    · rw [hT]
      apply guarded_no_occ
      exact guarded_append
        (guarded_append (headerTplOpen_g r hct hcb hff)
          (guarded_append
            (guarded_append (bguard_sound (by decide))
              (guarded_of_not_mem (S "img") (esc_no_lt _)))
            (bguard_sound (by decide))))
        (bguard_sound (by decide))

/-- Witness for claim C4's amended theorem: the all-failing oracle on the
concrete report with an unreachable logo. -/
theorem claim4_amended_witness :
    (∀ u : Str, oFail u = none) ∧
    buildTemplateAssets r4 oFail = tplNone ∧
    hydrateAssets r4 oFail = r4 ∧
    (escapeHtml r4.reportName <:+: headerTemplate r4 tplNone) ∧
    ¬ (S "<img" <:+: headerTemplate r4 tplNone) := by
  have h := claim4_amended r4 oFail (fun _ => rfl)
  have h3 := h.2.2 rfl (by decide) (by decide) (by decide)
  exact ⟨fun _ => rfl, h.1, h.2.1, h3.1, h3.2⟩

/-! ## Claim C5 -/

/-- An oracle whose fetches all succeed with a PNG payload. -/
def oOk : Oracle := fun _ => some ⟨some (S "image/png"), S "QUFBQQ=="⟩

/-- Claim C5, counterexample: `hydrateAssets` (src/unnamed/part_000 lines
79-93) writes the fetched data URI back into the validated report — after
hydration the report differs from the validated value, its `assets.logo`
now holding the inline form; the report is not immutable after
validation. -/
theorem claim5_counterexample :
    hydrateAssets r4 oOk ≠ r4 ∧
    (hydrateAssets r4 oOk).assets.logo = some (S "data:image/png;base64,QUFBQQ==") := by
  decide

/-- Whether a component is the `image` variant. -/
def isImage : Component → Bool
  | .image _ _ _ _ _ _ => true
  | _ => false

/-- Claim C5, amended: `hydrateAssets` does mutate the validated report,
but only its asset references — `company`, `reportName`, `colors`,
`configs` and the component list's length are untouched, every non-image
component is returned unchanged, and an image component changes in its
`url` alone.  (`buildTemplateAssets` of src/src/server.ts instead reads
the report and returns a separate record, leaving it unchanged.) -/
theorem claim5_amended : ∀ (r : Report) (o : Oracle),
    (hydrateAssets r o).company = r.company ∧
    (hydrateAssets r o).reportName = r.reportName ∧
    (hydrateAssets r o).colors = r.colors ∧
    (hydrateAssets r o).configs = r.configs ∧
    (hydrateAssets r o).components.length = r.components.length ∧
    (∀ c ∈ r.components, isImage c = false → hydrateComp o c = c) ∧
    (∀ (u : Str) (a cp w hh : Option Str) (st : Style), ∃ u2,
      hydrateComp o (.image u a cp w hh st) = .image u2 a cp w hh st) := by
  intro r o
  refine ⟨rfl, rfl, rfl, rfl, by simp [hydrateAssets], ?_, ?_⟩
  · intro c _ hni
    cases c
    case image u a cp w hh st => simp [isImage] at hni
    all_goals rfl
  · intro u a cp w hh st
    exact ⟨_, rfl⟩

/-- Witness for claim C5's amended theorem at a concrete non-image
component of a concrete report. -/
theorem claim5_amended_witness :
    (Component.para (S "hi") {} ∈ r4.components) ∧
    isImage (.para (S "hi") {}) = false ∧
    hydrateComp oFail (.para (S "hi") {}) = .para (S "hi") {} :=
  ⟨by decide, rfl,
   (claim5_amended r4 oFail).2.2.2.2.2.1 (.para (S "hi") {}) (by decide) rfl⟩

/-! ## Claim C6 -/

/-- An already-inline (non-base64) data URI. -/
def dURI : Str := S "data:text/plain,hello"

/-- Node's `fetch` resolves `data:` URLs itself: fetching `dURI` yields its
decoded payload (`hello`, base64 `aGVsbG8=`) with its declared content
type. -/
def o6 : Oracle := fun u =>
  if u = dURI then some ⟨some (S "text/plain"), S "aGVsbG8="⟩ else none

/-- Claim C6, counterexample: `urlToDataUri` (src/src/server.ts lines
75-87) performs no inline recognition — an already-inline reference is
re-fetched and re-encoded, producing a normalized base64 data URI that
differs from the original; and when the fetch fails it returns null
rather than passing the inline value through. -/
theorem claim6_counterexample :
    urlToDataUri (some dURI) o6 = some (S "data:text/plain;base64,aGVsbG8=") ∧
    urlToDataUri (some dURI) o6 ≠ some dURI ∧
    urlToDataUri (some dURI) oFail = none := by decide

/-- Claim C6, amended: the spec-modelled `toDataUri` helper of the
`hydrateAssets` pipeline does recognize `data:`-prefixed references and
passes them through unchanged without consulting the network, so hydrating
a report whose `assets.logo` is already inline leaves it unchanged; but
the `urlToDataUri` path of src/src/server.ts re-fetches and re-encodes
inline references. -/
theorem claim6_amended :
    (∀ (s : Str) (o : Oracle), toDataUri (some (S "data:" ++ s)) o = some (S "data:" ++ s)) ∧
    (∀ (r : Report) (o : Oracle) (l : Str), r.assets.logo = some (S "data:" ++ l) →
      (hydrateAssets r o).assets.logo = r.assets.logo) := by
  constructor
  · intro s o
    simp [toDataUri, List.prefix_append]
  · intro r o l hl
    rw [show (hydrateAssets r o).assets.logo = hydRef r.assets.logo o from rfl, hl]
    simp [hydRef, toDataUri, List.prefix_append]

/-- A report whose logo is already inline. -/
def r6 : Report := { r4 with assets := { logo := some (S "data:" ++ S "abc") } }

/-- Witness for claim C6's amended theorem at concrete inline values. -/
theorem claim6_amended_witness :
    toDataUri (some (S "data:" ++ S "x/y;base64,Zm9v")) oFail =
      some (S "data:" ++ S "x/y;base64,Zm9v") ∧
    r6.assets.logo = some (S "data:" ++ S "abc") ∧
    (hydrateAssets r6 oFail).assets.logo = r6.assets.logo :=
  ⟨claim6_amended.1 (S "x/y;base64,Zm9v") oFail, rfl,
   claim6_amended.2 r6 oFail (S "abc") rfl⟩

/-! ## Claim C7 -/

/-- A defaulted report; `defCfg` already carries the footer template
`Page \x7b\x7bpage\x7d\x7d of \x7b\x7bpages\x7d\x7d` and a visible footer. -/
def r7 : Report :=
  { company := S "c", reportName := S "r", colors := defColors, assets := {},
    configs := defCfg, components := [.para (S "hi") {}] }

/-- The expansion of the default footer text template. -/
def pageOfStr : Str :=
  footerTextHtml (S "Page \x7b\x7bpage\x7d\x7d of \x7b\x7bpages\x7d\x7d")

set_option maxRecDepth 8192 in
/-- Claim C7, counterexample: the `\x7b\x7bpages\x7d\x7d` placeholder is
replaced by a marker *preceded* by a non-breaking space but not followed
by one — the built footer fragment contains the total-pages marker yet
contains no occurrence of that marker surrounded by `&nbsp;` on both
sides, refuting "each … replaced by its marker surrounded by
non-breaking-space characters". -/
theorem claim7_counterexample :
    ¬ (S "&nbsp;<span class=\"totalPages\"></span>&nbsp;" <:+: footerTemplate r7 tplNone) ∧
    (S "&nbsp;<span class=\"totalPages\"></span>" <:+: footerTemplate r7 tplNone) := by
  decide

set_option maxRecDepth 8192 in
/-- Claim C7, amended: for a visible footer configured with
`Page \x7b\x7bpage\x7d\x7d of \x7b\x7bpages\x7d\x7d`, the fragment embeds
the template expansion, whose text carries exactly one page-number marker
and one total-pages marker in that order, with `Page` and `of` each
wrapped in its own padded span; the page marker is surrounded by
non-breaking spaces while the total-pages marker is only preceded by
one. -/
theorem claim7_amended : ∀ (r : Report) (tpl : TplAssets),
    r.configs.footer.visible = true →
    r.configs.footer.text = S "Page \x7b\x7bpage\x7d\x7d of \x7b\x7bpages\x7d\x7d" →
    (footerTemplate r tpl =
      footerTplOpen r ++ footerTplImg tpl ++ pageOfStr ++ S "\n</div>") ∧
    pageOfStr =
      S "<span style=\"padding-right:2px;\">Page</span> &nbsp;<span class=\"pageNumber\"></span>&nbsp; <span style=\"padding:0 2px;\">of</span> &nbsp;<span class=\"totalPages\"></span>" ∧
    cnt (S "class=\"pageNumber\"") pageOfStr = 1 ∧
    cnt (S "class=\"totalPages\"") pageOfStr = 1 ∧
    (∃ a b c : Str, pageOfStr =
      a ++ S "&nbsp;<span class=\"pageNumber\"></span>&nbsp;" ++ b ++
      S "&nbsp;<span class=\"totalPages\"></span>" ++ c) := by
  intro r tpl hv ht
  refine ⟨?_, by decide, by decide, by decide,
    ⟨S "<span style=\"padding-right:2px;\">Page</span> ",
     S " <span style=\"padding:0 2px;\">of</span> ", [], by decide⟩⟩
  simp [footerTemplate, hv, ht, pageOfStr]

/-- Witness for claim C7's amended theorem at the defaulted report. -/
theorem claim7_amended_witness :
    r7.configs.footer.visible = true ∧
    footerTemplate r7 tplNone =
      footerTplOpen r7 ++ footerTplImg tplNone ++ pageOfStr ++ S "\n</div>" :=
  ⟨rfl, (claim7_amended r7 tplNone rfl rfl).1⟩

/-! ## Claim C8 -/

/-- A config whose table carries a thead background token (the renderer's
`Cfg` type has the field; the shipped validator never populates it). -/
def cfg8 : Cfg := { defCfg with table := { defCfg.table with headerBg := some (S "BASE") } }

def st8 : Style := { thead := some (S "OVR") }

set_option maxRecDepth 8192 in
/-- Claim C8, counterexample: in the table's thead slot the component
override is emitted *before* the table-config token
(`tw(style?.thead, cfg.table.headerBg)`, src/src/renderers.ts lines
103-106) — the emitted class list is `OVR BASE`, not the claimed
base-then-override order. -/
theorem claim8_counterexample :
    (S "<thead class=\"OVR BASE\">" <:+: tableBlock none [S "H"] [] none st8 cfg8 defColors) ∧
    ¬ (S "BASE OVR" <:+: tableBlock none [S "H"] [] none st8 cfg8 defColors) := by
  decide

/-- The two-token composition rule of `tw`: both tokens kept, in argument
order, space-separated. -/
theorem tw_two_nonempty (b ov : Str) (hb : b ≠ []) (hov : ov ≠ []) :
    tw [some b, some ov] = b ++ ' ' :: ov := by
  simp [tw, List.filter, hb, hov, sepSpace]

set_option maxRecDepth 8192 in
/-- Claim C8, amended: every styled slot except the table's thead emits the
fixed structural base tokens first with the component's override appended
after them (never replacing the base); the thead slot alone reverses the
order, emitting the component's `thead` override *before* the table-config
`headerBg` token — and under the shipped validator, which never populates
`headerBg`, the thead class list is the override alone. -/
theorem claim8_amended :
    (∀ b ov : Str, b ≠ [] → ov ≠ [] → tw [some b, some ov] = b ++ ' ' :: ov) ∧
    (∀ (ov bg : Str) (st : Style) (cfg : Cfg), st.thead = some ov →
      cfg.table.headerBg = some bg → ov ≠ [] → bg ≠ [] →
      theadClassOf st cfg = ov ++ ' ' :: bg) ∧
    (S "<section class=\"mb-3 ov\">" <:+: headerBlock (S "T") { wrapper := some (S "ov") }) ∧
    (S "<h1 class=\"text-2xl font-bold text-slate-800 ov\">" <:+: headerBlock (S "T") { title := some (S "ov") }) ∧
    (S "<h2 class=\"text-xl font-semibold text-slate-700 ov\">" <:+: subheaderBlock (S "T") { title := some (S "ov") }) ∧
    (S "<div class=\"text-sm text-slate-600 ov\">" <:+: dateBlock (some (S "2024-01-15")) { text := some (S "ov") } defCfg now0) ∧
    (S "<p class=\"text-justify ov\">" <:+: paraBlock (S "T") { text := some (S "ov") }) ∧
    (S "<hr class=\"my-4 ov\"" <:+: dividerBlock defColors { hr := some (S "ov") }) ∧
    (S "<div class=\"h-8 ov\">" <:+: spacerBlock none { wrapper := some (S "ov") }) ∧
    (S "<div class=\"text-sm text-slate-600 ov\">" <:+: signatureBlock none none { label := some (S "ov") } defColors) ∧
    (S "<section class=\"mt-8 text-center text-sm text-slate-600 ov\">" <:+: footerTextBlock (S "T") { text := some (S "ov") }) ∧
    (S "<section class=\"my-4 ov\">" <:+: tableBlock none [] [] none { wrapper := some (S "ov") } defCfg defColors) ∧
    (S "<div class=\"mb-2 font-semibold text-slate-800 ov\">" <:+: tableBlock (some (S "T")) [] [] none { title := some (S "ov") } defCfg defColors) ∧
    (S "<div class=\"tbl-wrap overflow-x-auto ov\">" <:+: tableBlock none [] [] none { container := some (S "ov") } defCfg defColors) ∧
    (S "<img src=\"u\" alt=\"\" class=\"max-w-full mx-auto ov\"" <:+: imageBlock (S "u") none none none none { img := some (S "ov") }) ∧
    (S "<div class=\"text-xs text-slate-500 mt-1 text-center ov\">" <:+: imageBlock (S "u") none (some (S "C")) none none { caption := some (S "ov") }) ∧
    (S "<thead class=\"ov\">" <:+: tableBlock none [] [] none { thead := some (S "ov") } defCfg defColors) := by
  refine ⟨tw_two_nonempty, ?_, by decide, by decide, by decide, by decide, by decide,
    by decide, by decide, by decide, by decide, by decide, by decide, by decide,
    by decide, by decide, by decide⟩
  intro ov bg st cfg h1 h2 hov hbg
  unfold theadClassOf
  rw [h1, h2]
  exact tw_two_nonempty ov bg hov hbg

/-- Witness for claim C8's amended theorem at concrete tokens. -/
theorem claim8_amended_witness :
    tw [some (S "base"), some (S "ov")] = S "base" ++ ' ' :: S "ov" ∧
    theadClassOf st8 cfg8 = S "OVR" ++ ' ' :: S "BASE" :=
  ⟨claim8_amended.1 (S "base") (S "ov") (by decide) (by decide),
   claim8_amended.2.1 (S "OVR") (S "BASE") st8 cfg8 rfl rfl (by decide) (by decide)⟩

/-! ## Claim C9 -/

/-- Claim C9, counterexample: when the `date` component's `value` is
absent, `dateFmt` returns `new Date().toISOString().slice(0, 10)` — the
current date in `YYYY-MM-DD` form, not the fixed "DD Mon YYYY" style. -/
theorem claim9_counterexample :
    ddMonShape (dateFmt none now0) = false ∧ dateFmt none now0 = S "2026-10-11" := by
  decide

/-- Claim C9, amended: `dateFmt` ignores the `date.format` configuration
token (changing the token leaves `dateBlock`'s output untouched), and a
parseable provided value is always rendered as zero-padded day, space,
three-letter English month abbreviation, space, year digits — the
"DD Mon YYYY" style; but an absent value is rendered as the *current date
in ISO `YYYY-MM-DD` form*, not in that style. -/
theorem claim9_amended :
    (∀ now : Now, dateFmt none now = isoOfNow now) ∧
    (∀ (v : Str) (y m d : Nat) (now : Now), parseIso10 (v.take 10) = some (y, m, d) →
      dateFmt (some v) now = pad2 d ++ ' ' :: (monthMap.getD (m - 1) []) ++ ' ' :: natStr y) ∧
    ddMonShape (dateFmt (some (S "2024-01-15")) now0) = true ∧
    (∀ (cfg : Cfg) (f : Str) (v : Option Str) (st : Style) (now : Now),
      dateBlock v st { cfg with date := { cfg.date with format := f } } now =
      dateBlock v st cfg now) := by
  refine ⟨fun now => rfl, ?_, by decide, fun cfg f v st now => rfl⟩
  intro v y m d now h
  simp [dateFmt, h]

/-- Witness for claim C9's amended theorem at a concrete parseable value. -/
theorem claim9_amended_witness :
    parseIso10 ((S "2024-01-15").take 10) = some (2024, 1, 15) ∧
    dateFmt (some (S "2024-01-15")) now0 =
      pad2 15 ++ ' ' :: (monthMap.getD 0 []) ++ ' ' :: natStr 2024 :=
  ⟨by decide, claim9_amended.2.1 (S "2024-01-15") 2024 1 15 now0 (by decide)⟩

/-! ## Claim C10 -/

set_option maxRecDepth 8192 in
/-- Claim C10, confirmed: the HTML-preview fixed footer band inserts the
configured footer text with `.replace("\x7b\x7bpage\x7d\x7d", "")` then
`.replace("\x7b\x7bpages\x7d\x7d", "")` — plain-string `replace`, so only
the first occurrence of each placeholder is removed (replaced by the empty
string, no counter-marker element), later occurrences remaining verbatim:
structurally, every visible-footer render embeds `stripPreview` of the
text; on a text with two occurrences of each placeholder the second ones
survive; and the default template yields a band with no `pageNumber` or
`totalPages` marker, just `Page  of `. -/
theorem claim10 :
    (∀ (r : Report) (now : Now), r.configs.footer.visible = true →
      renderBody r now = fixedHeader r ++ mainWrap r now ++
        (S "\n<footer class=\"fixed-footer border-t px-4\" style=\"border-color:" ++
         r.colors.border ++ S "\">\n  " ++
         (if isTruthy r.assets.footerImage then
            S "<img src=\"" ++ optVal r.assets.footerImage ++ S "\" alt=\"footer\" class=\"h-6 mr-2\"/>"
          else []) ++
         S "\n  <span class=\"text-sm text-gray-600\">\n    " ++
         stripPreview r.configs.footer.text ++ S "\n  </span>\n</footer>")) ∧
    stripPreview (S "A\x7b\x7bpage\x7d\x7dB\x7b\x7bpage\x7d\x7dC\x7b\x7bpages\x7d\x7dD\x7b\x7bpages\x7d\x7dE") =
      S "AB\x7b\x7bpage\x7d\x7dCD\x7b\x7bpages\x7d\x7dE" ∧
    ¬ (S "pageNumber" <:+: renderBody r7 now0) ∧
    ¬ (S "totalPages" <:+: renderBody r7 now0) ∧
    (S "Page  of " <:+: renderBody r7 now0) := by
  refine ⟨?_, by decide, by decide, by decide, by decide⟩
  intro r now hv
  simp [renderBody, fixedFooter, hv]

/-- Witness for claim C10's theorem at the defaulted report. -/
theorem claim10_witness :
    r7.configs.footer.visible = true ∧
    renderBody r7 now0 = fixedHeader r7 ++ mainWrap r7 now0 ++
      (S "\n<footer class=\"fixed-footer border-t px-4\" style=\"border-color:" ++
       r7.colors.border ++ S "\">\n  " ++
       (if isTruthy r7.assets.footerImage then
          S "<img src=\"" ++ optVal r7.assets.footerImage ++ S "\" alt=\"footer\" class=\"h-6 mr-2\"/>"
        else []) ++
       S "\n  <span class=\"text-sm text-gray-600\">\n    " ++
       stripPreview r7.configs.footer.text ++ S "\n  </span>\n</footer>") :=
  ⟨rfl, claim10.1 r7 now0 rfl⟩

end Reports
